import Mathlib

/-!
# Video player: decode, convert, upload, pace

A shallow embedding of `src/main.cpp` (`CreateTexture`, `CreateSimpleShader`, `main`).

The program talks to three external libraries (the container/codec library, the
windowing library and the GPU API).  Every value those libraries hand back to the program
is an input of the model, collected in `Env`; what the program does with it is recorded as
a list of `Event`s together with the value returned by `main`.

Conventions
* C `int` values are `Int`; `%` is the truncating remainder `Int.tmod`; the one
  increment that can leave the 32-bit range goes through `wrapInt32`.
* A `double` is represented by the exact value of the expression before rounding
  (`CDouble`), with the two infinities and NaN that a division by zero yields.
* The busy wait on the wall clock is recorded as one `pace` event carrying the delay it
  waits for.  When that delay is +infinity the condition of the wait,
  `currentTime - lastFrameTime < frameDelay`, holds for every reading of the clock: the
  program never leaves the wait, the loop stops there for good (`Stop.waitForever`) and
  `main` returns nothing.  For any other delay the wait is taken to end: the readings of
  the clock are finite and grow without bound.  The clock itself is not part of the model.
* The decoder is an input as well: each packet comes with the values the decoder returns
  when that packet is submitted.  Pictures the decoder would only give out to further
  `avcodec_receive_frame` calls, which `main` never makes, do not appear.
-/

namespace VideoPlayer

/-! ## Constants of the external libraries -/

/-- Value of `AVMEDIA_TYPE_VIDEO` in `enum AVMediaType`. -/
def AVMEDIA_TYPE_VIDEO : Int := 0

/-- Value of `AVERROR(EAGAIN)`: the decoder needs more input (`EAGAIN` is 11). -/
def AVERROR_EAGAIN : Int := -11

/-- Value of `GL_NO_ERROR`. -/
def GL_NO_ERROR : Nat := 0

/-- Value of `GLEW_OK`. -/
def GLEW_OK : Int := 0

/-! ## Numbers -/

/-- Two's-complement reading of an integer as a 32-bit `int`. -/
def wrapInt32 (x : Int) : Int := (x + 2 ^ 31) % 2 ^ 32 - 2 ^ 31

/-- A `double`, as the exact value before rounding, or one of the special values. -/
inductive CDouble
  | finite (q : ℚ)
  | posInf
  | negInf
  | nan
  deriving DecidableEq, Repr

/-- The expression `(double)a / b` for two `int`s `a`, `b` (the second operand is
converted to `double` as well): the exact quotient, or the value IEEE 754 assigns to a
division by zero. -/
def CDouble.divInts (a b : Int) : CDouble :=
  if b = 0 then
    if a = 0 then .nan else if 0 < a then .posInf else .negInf
  else .finite (Rat.divInt a b)

/-- Lines 168-173 of `main`: the frame delay, from `avg_frame_rate.num` and
`avg_frame_rate.den` of the selected stream. -/
def frameDelay (num den : Int) : CDouble :=
  if den ≠ 0 then CDouble.divInts den num else .finite 1

/-- Lines 177-180 of `main`: `if (width % 2 != 0) width++;` applied to a source
dimension. -/
def evenDim (src : Int) : Int :=
  if Int.tmod src 2 ≠ 0 then wrapInt32 (src + 1) else src

/-! ## Events -/

/-- The objects `main` creates and destroys. -/
inductive Resource
  | testFile
  | container
  | codecCtx
  | swsCtx
  | rawFrame
  | rgbFrame
  | pixelBuffer
  | glfw
  | window
  | texture
  | vertexShader
  | fragmentShader
  | shaderProgram
  | vertexArray
  | vertexBuffer
  | indexBuffer
  deriving DecidableEq, Repr

/-- The diagnostics written to `std::cerr`. -/
inductive Diag
  | fileOpen
  | openInput
  | streamInfo
  | noVideoStream
  | noCodec
  | allocCodecCtx
  | copyParams
  | openCodec
  | scaleCtx
  | allocFrame
  | allocRgbFrame
  | bufferSize
  | allocBuffer
  | fillArrays
  | glfwInit
  | createWindow
  | glewInit
  | genTexture
  | glCreateTexture (err : Nat)
  | createTexture
  | compileShader
  | linkShader
  | createShader
  | glUniform (err : Nat)
  | glVertexArrays (err : Nat)
  | sendPacket
  | rgbNull
  | receiveFrame (ret : Int)
  | glUpdateTexture (err : Nat)
  | glRender (err : Nat)
  deriving DecidableEq, Repr

/-- The lines written to `std::cout`. -/
inductive Msg
  | frameDelay (d : CDouble)
  | resolution (w h : Int)
  | endOfVideo
  deriving DecidableEq, Repr

/-- What the program does to the outside world.  Packets are named by their position in
the sequence of `av_read_frame` calls. -/
inductive Event
  | acquire (r : Resource)
  | release (r : Resource)
  | stderr (d : Diag)
  | stdout (m : Msg)
  | networkInit
  | swsGetContext (srcW srcH dstW dstH : Int)
  | imageGetBufferSize (w h : Int)
  | imageFillArrays (w h : Int)
  | createWindow (w h : Int)
  | texImage2D (w h : Int)
  | avReadFrame (r : Option Nat)
  | sendPacket (i : Nat)
  | receiveFrame (i : Nat)
  | swsScale (i : Nat)
  | packetUnref
  | texSubImage2D (w h : Int) (i : Nat)
  | drawElements
  | swapBuffers
  | pace (d : CDouble)
  | pollEvents
  deriving DecidableEq, Repr

/-! ## Inputs -/

/-- A packet returned by `av_read_frame`, with what the decoder answers if the packet is
submitted to it. -/
structure Packet where
  /-- Field `pkt.stream_index`. -/
  streamIndex : Int
  /-- Return value of `avcodec_send_packet` for this packet. -/
  sendRet : Int
  /-- Return value of the `avcodec_receive_frame` call that follows. -/
  recvRet : Int
  /-- Whether `frame->data[0]` is non-null after that call. -/
  frameData : Bool
  deriving DecidableEq, Repr

/-- Everything the external libraries return during one run. -/
structure Env where
  /-- Return value of `fopen_s`. -/
  fopenErr : Int
  /-- Whether `testFile` is non-null after `fopen_s`. -/
  testFile : Bool
  /-- Return value of `avformat_open_input`. -/
  openInputRet : Int
  /-- Return value of `avformat_find_stream_info`. -/
  findStreamInfoRet : Int
  /-- The `codec_type` of each stream of the container, in order. -/
  streamTypes : List Int
  /-- Whether `avcodec_find_decoder` returns a codec. -/
  decoderFound : Bool
  /-- Whether `avcodec_alloc_context3` returns a context. -/
  codecCtxAlloc : Bool
  /-- Return value of `avcodec_parameters_to_context`. -/
  paramsRet : Int
  /-- Return value of `avcodec_open2`. -/
  codecOpenRet : Int
  /-- Field `avg_frame_rate.num` of the selected stream. -/
  rateNum : Int
  /-- Field `avg_frame_rate.den` of the selected stream. -/
  rateDen : Int
  /-- Field `codecCtx->width`. -/
  srcW : Int
  /-- Field `codecCtx->height`. -/
  srcH : Int
  /-- Whether `sws_getContext` returns a context. -/
  swsCtx : Bool
  /-- Whether the first `av_frame_alloc` returns a frame. -/
  frameAlloc : Bool
  /-- Whether the second `av_frame_alloc` returns a frame. -/
  rgbFrameAlloc : Bool
  /-- Return value of `av_image_get_buffer_size`. -/
  numBytes : Int
  /-- Whether `av_malloc` returns a buffer. -/
  bufferAlloc : Bool
  /-- Return value of `av_image_fill_arrays`. -/
  fillRet : Int
  /-- Whether `rgbFrame->data[0]` is non-null once the arrays are filled; the loop never
  assigns it. -/
  rgbData0 : Bool
  /-- Whether `glfwInit` succeeds. -/
  glfwInitOk : Bool
  /-- Whether `glfwCreateWindow` returns a window. -/
  window : Bool
  /-- Return value of `glewInit`. -/
  glewRet : Int
  /-- Texture name written by `glGenTextures`. -/
  texGen : Nat
  /-- Value of `glGetError` at the end of `CreateTexture`. -/
  texGlErr : Nat
  /-- Compile status of the vertex shader. -/
  vsCompiled : Bool
  /-- Compile status of the fragment shader. -/
  fsCompiled : Bool
  /-- Link status of the program. -/
  linked : Bool
  /-- Value of `glGetError` after the sampler uniform is set. -/
  uniformGlErr : Nat
  /-- Value of `glGetError` after the vertex objects are set up. -/
  vaoGlErr : Nat
  /-- Results of the successive `av_read_frame` calls: `none` is a negative return value,
  `some p` is packet `p`.  Once the list is used up every further call fails. -/
  reads : List (Option Packet)
  /-- Value of `glfwWindowShouldClose` at the start of iteration `k`. -/
  shouldClose : Nat → Bool
  /-- Value of `glGetError` after the texture update of iteration `k`. -/
  uploadGlErr : Nat → Nat
  /-- Value of `glGetError` after the draw call of iteration `k`. -/
  drawGlErr : Nat → Nat

/-- Lines 126-132 of `main`: index of the first stream of video type, or -1. -/
def findVideoStream : List Int → Int → Int
  | [], _ => -1
  | ty :: rest, i => if ty = AVMEDIA_TYPE_VIDEO then i else findVideoStream rest (i + 1)

/-! ## `CreateTexture` and `CreateSimpleShader` -/

/-- Function `CreateTexture`: the events and the returned texture name (0 on failure). -/
def CreateTexture (env : Env) (width height : Int) : List Event × Nat :=
  if env.texGen = 0 then ([.stderr .genTexture], 0)
  else if env.texGlErr ≠ GL_NO_ERROR then
    ([.acquire .texture, .texImage2D width height, .stderr (.glCreateTexture env.texGlErr),
      .release .texture], 0)
  else ([.acquire .texture, .texImage2D width height], env.texGen)

/-- The lambda `compile` of `CreateSimpleShader`: events and whether a shader is
returned.  `glCreateShader` is taken to return an object. -/
def compile (r : Resource) (status : Bool) : List Event × Bool :=
  if !status then ([.acquire r, .stderr .compileShader, .release r], false)
  else ([.acquire r], true)

/-- Function `CreateSimpleShader`: events and whether a program is returned.
`glCreateProgram` is taken to return an object. -/
def CreateSimpleShader (env : Env) : List Event × Bool :=
  let vs := compile .vertexShader env.vsCompiled
  if !vs.2 then (vs.1, false) else
  let fs := compile .fragmentShader env.fsCompiled
  if !fs.2 then (vs.1 ++ fs.1 ++ [.release .vertexShader], false) else
  let t := vs.1 ++ fs.1 ++ [.acquire .shaderProgram]
  if !env.linked then
    (t ++ [.stderr .linkShader, .release .vertexShader, .release .fragmentShader,
      .release .shaderProgram], false)
  else (t ++ [.release .vertexShader, .release .fragmentShader], true)

/-! ## Start-up (lines 103-369 of `main`) -/

/-- How the start-up part of `main` ends: with a `return` statement, or ready to enter
the playback loop. -/
inductive Setup
  | returned (trace : List Event) (code : Int)
  | ready (trace : List Event)
  deriving DecidableEq, Repr

/-- Lines 284-369 of `main`: texture, shader program, sampler uniform and vertex objects,
after the events `t`. -/
def setupGpu (env : Env) (width height : Int) (t : List Event) : Setup :=
  let tex := CreateTexture env width height
  if tex.2 = 0 then
    .returned (t ++ tex.1 ++ [.stderr .createTexture, .release .window, .release .glfw,
      .release .pixelBuffer, .release .rawFrame, .release .rgbFrame, .release .swsCtx,
      .release .codecCtx, .release .container]) (-1) else
  let sh := CreateSimpleShader env
  if sh.2 = false then
    .returned (t ++ tex.1 ++ sh.1 ++ [.stderr .createShader, .release .texture,
      .release .window, .release .glfw, .release .pixelBuffer, .release .rawFrame,
      .release .rgbFrame, .release .swsCtx, .release .codecCtx, .release .container]) (-1) else
  if env.uniformGlErr ≠ GL_NO_ERROR then
    .returned (t ++ tex.1 ++ sh.1 ++ [.stderr (.glUniform env.uniformGlErr),
      .release .shaderProgram, .release .texture, .release .window, .release .glfw,
      .release .pixelBuffer, .release .rawFrame, .release .rgbFrame, .release .swsCtx,
      .release .codecCtx, .release .container]) (-1) else
  if env.vaoGlErr ≠ GL_NO_ERROR then
    .returned (t ++ tex.1 ++ sh.1 ++ [.acquire .vertexArray, .acquire .vertexBuffer,
      .acquire .indexBuffer, .stderr (.glVertexArrays env.vaoGlErr), .release .indexBuffer,
      .release .vertexBuffer, .release .vertexArray, .release .shaderProgram,
      .release .texture, .release .window, .release .glfw, .release .pixelBuffer,
      .release .rawFrame, .release .rgbFrame, .release .swsCtx, .release .codecCtx,
      .release .container]) (-1) else
  .ready (t ++ tex.1 ++ sh.1 ++ [.acquire .vertexArray, .acquire .vertexBuffer,
    .acquire .indexBuffer])

/-- Lines 245-282 of `main`: GLFW, the window and GLEW, after the events `t`; then
`setupGpu`. -/
def setupWindow (env : Env) (width height : Int) (t : List Event) : Setup :=
  if env.glfwInitOk = false then
    .returned (t ++ [.stderr .glfwInit, .release .pixelBuffer, .release .rawFrame,
      .release .rgbFrame, .release .swsCtx, .release .codecCtx, .release .container]) (-1) else
  if env.window = false then
    .returned (t ++ [.acquire .glfw, .createWindow width height, .stderr .createWindow,
      .release .glfw, .release .pixelBuffer, .release .rawFrame, .release .rgbFrame,
      .release .swsCtx, .release .codecCtx, .release .container]) (-1) else
  if env.glewRet ≠ GLEW_OK then
    .returned (t ++ [.acquire .glfw, .createWindow width height, .acquire .window,
      .stderr .glewInit, .release .window, .release .glfw, .release .pixelBuffer,
      .release .rawFrame, .release .rgbFrame, .release .swsCtx, .release .codecCtx,
      .release .container]) (-1) else
  setupGpu env width height
    (t ++ [.acquire .glfw, .createWindow width height, .acquire .window])

/-- Lines 183-243 of `main`: scale context, the two frames and the pixel buffer, after
the events `t`; then `setupWindow`. -/
def setupFrames (env : Env) (width height : Int) (t : List Event) : Setup :=
  if env.swsCtx = false then
    .returned (t ++ [.swsGetContext env.srcW env.srcH width height, .stderr .scaleCtx,
      .release .codecCtx, .release .container]) (-1) else
  if env.frameAlloc = false then
    .returned (t ++ [.swsGetContext env.srcW env.srcH width height, .acquire .swsCtx,
      .stderr .allocFrame, .release .swsCtx, .release .codecCtx, .release .container]) (-1) else
  if env.rgbFrameAlloc = false then
    .returned (t ++ [.swsGetContext env.srcW env.srcH width height, .acquire .swsCtx,
      .acquire .rawFrame, .stderr .allocRgbFrame, .release .rawFrame, .release .swsCtx,
      .release .codecCtx, .release .container]) (-1) else
  if env.numBytes < 0 then
    .returned (t ++ [.swsGetContext env.srcW env.srcH width height, .acquire .swsCtx,
      .acquire .rawFrame, .acquire .rgbFrame, .imageGetBufferSize width height,
      .stderr .bufferSize, .release .rawFrame, .release .rgbFrame, .release .swsCtx,
      .release .codecCtx, .release .container]) (-1) else
  if env.bufferAlloc = false then
    .returned (t ++ [.swsGetContext env.srcW env.srcH width height, .acquire .swsCtx,
      .acquire .rawFrame, .acquire .rgbFrame, .imageGetBufferSize width height,
      .stderr .allocBuffer, .release .rawFrame, .release .rgbFrame, .release .swsCtx,
      .release .codecCtx, .release .container]) (-1) else
  if env.fillRet < 0 then
    .returned (t ++ [.swsGetContext env.srcW env.srcH width height, .acquire .swsCtx,
      .acquire .rawFrame, .acquire .rgbFrame, .imageGetBufferSize width height,
      .acquire .pixelBuffer, .imageFillArrays width height, .stderr .fillArrays,
      .release .pixelBuffer, .release .rawFrame, .release .rgbFrame, .release .swsCtx,
      .release .codecCtx, .release .container]) (-1) else
  setupWindow env width height
    (t ++ [.swsGetContext env.srcW env.srcH width height, .acquire .swsCtx,
      .acquire .rawFrame, .acquire .rgbFrame, .imageGetBufferSize width height,
      .acquire .pixelBuffer, .imageFillArrays width height])

/-- Lines 103-181 of `main`: the file test, the container, the stream search and the
decoder, the frame delay and the even output size; then `setupFrames`. -/
def setup (env : Env) : Setup :=
  if env.fopenErr ≠ 0 ∨ env.testFile = false then
    .returned [.stderr .fileOpen] (-1) else
  if env.openInputRet ≠ 0 then
    .returned [.acquire .testFile, .release .testFile, .networkInit,
      .stderr .openInput] (-1) else
  if env.findStreamInfoRet < 0 then
    .returned [.acquire .testFile, .release .testFile, .networkInit, .acquire .container,
      .stderr .streamInfo, .release .container] (-1) else
  if findVideoStream env.streamTypes 0 = -1 then
    .returned [.acquire .testFile, .release .testFile, .networkInit, .acquire .container,
      .stderr .noVideoStream, .release .container] (-1) else
  if env.decoderFound = false then
    .returned [.acquire .testFile, .release .testFile, .networkInit, .acquire .container,
      .stderr .noCodec, .release .container] (-1) else
  if env.codecCtxAlloc = false then
    .returned [.acquire .testFile, .release .testFile, .networkInit, .acquire .container,
      .stderr .allocCodecCtx, .release .container] (-1) else
  if env.paramsRet < 0 then
    .returned [.acquire .testFile, .release .testFile, .networkInit, .acquire .container,
      .acquire .codecCtx, .stderr .copyParams, .release .codecCtx,
      .release .container] (-1) else
  if env.codecOpenRet < 0 then
    .returned [.acquire .testFile, .release .testFile, .networkInit, .acquire .container,
      .acquire .codecCtx, .stderr .openCodec, .release .codecCtx,
      .release .container] (-1) else
  setupFrames env (evenDim env.srcW) (evenDim env.srcH)
    [.acquire .testFile, .release .testFile, .networkInit, .acquire .container,
      .acquire .codecCtx, .stdout (.frameDelay (frameDelay env.rateNum env.rateDen)),
      .stdout (.resolution (evenDim env.srcW) (evenDim env.srcH))]

/-! ## Playback loop (lines 371-445 of `main`) -/

/-- State at the exit of the inner `while (av_read_frame(formatCtx, &pkt) >= 0)` loop. -/
structure Decoded where
  /-- Events of the inner loop. -/
  events : List Event
  /-- The packet whose picture was converted when `newFrame` is true, `none` when
  `newFrame` is false. -/
  newFrame : Option Nat
  /-- Position of the next `av_read_frame` call. -/
  next : Nat
  /-- Results of the `av_read_frame` calls still to come. -/
  rest : List (Option Packet)
  deriving DecidableEq, Repr

/-- Puts the events of earlier inner-loop iterations in front. -/
def Decoded.after (d : Decoded) (evs : List Event) : Decoded :=
  { d with events := evs ++ d.events }

/-- Lines 377-405 of `main`: the inner loop, from the `av_read_frame` call number `idx`. -/
def decodeLoop (videoStream : Int) (rgbData0 : Bool) :
    Nat → List (Option Packet) → Decoded
  | idx, [] => ⟨[.avReadFrame none], none, idx, []⟩
  | idx, none :: rest => ⟨[.avReadFrame none], none, idx + 1, rest⟩
  | idx, some p :: rest =>
    if p.streamIndex = videoStream then
      if p.sendRet < 0 then
        (decodeLoop videoStream rgbData0 (idx + 1) rest).after
          [.avReadFrame (some idx), .sendPacket idx, .stderr .sendPacket, .packetUnref]
      else if p.recvRet = 0 ∧ p.frameData = true then
        if rgbData0 then
          ⟨[.avReadFrame (some idx), .sendPacket idx, .receiveFrame idx, .swsScale idx,
            .packetUnref], some idx, idx + 1, rest⟩
        else
          ⟨[.avReadFrame (some idx), .sendPacket idx, .receiveFrame idx, .swsScale idx,
            .stderr .rgbNull, .packetUnref], none, idx + 1, rest⟩
      else if p.recvRet < 0 ∧ p.recvRet ≠ AVERROR_EAGAIN then
        (decodeLoop videoStream rgbData0 (idx + 1) rest).after
          [.avReadFrame (some idx), .sendPacket idx, .receiveFrame idx,
            .stderr (.receiveFrame p.recvRet), .packetUnref, .packetUnref]
      else
        (decodeLoop videoStream rgbData0 (idx + 1) rest).after
          [.avReadFrame (some idx), .sendPacket idx, .receiveFrame idx, .packetUnref,
            .packetUnref]
    else
      (decodeLoop videoStream rgbData0 (idx + 1) rest).after
        [.avReadFrame (some idx), .packetUnref]

/-- Outcome of line 407, `!newFrame && av_read_frame(formatCtx, &pkt) < 0`. -/
structure EndTest where
  /-- Events of the test: the extra `av_read_frame` call, if it is made. -/
  events : List Event
  /-- Value of the condition. -/
  ended : Bool
  /-- Position of the next `av_read_frame` call. -/
  next : Nat
  /-- Results of the `av_read_frame` calls still to come. -/
  rest : List (Option Packet)
  deriving DecidableEq, Repr

/-- Line 407 of `main`: no read when `newFrame` is true; otherwise one more
`av_read_frame`, whose packet, if any, is kept in `pkt` and not decoded. -/
def endTest (d : Decoded) : EndTest :=
  match d.newFrame, d.rest with
  | some _, rest => ⟨[], false, d.next, rest⟩
  | none, some _ :: rest => ⟨[.avReadFrame (some d.next)], false, d.next + 1, rest⟩
  | none, none :: rest => ⟨[.avReadFrame none], true, d.next + 1, rest⟩
  | none, [] => ⟨[.avReadFrame none], true, d.next, []⟩

/-- Why the playback loop stopped: the three ways out of the loop that the source has,
the pacing wait that is never left, and the bound of the model on the number of
iterations. -/
inductive Stop
  | windowClosed
  | endOfStream
  | gpuFault
  | waitForever
  | outOfFuel
  deriving DecidableEq, Repr

/-- Lines 413-421 of `main`: the texture update, made only when `newFrame` is true. -/
def upload (width height : Int) : Option Nat → List Event
  | some i => [.texSubImage2D width height i]
  | none => []

/-- Lines 374-445 of `main`: the playback loop from iteration `k`, with the locals
`videoStream`, `width`, `height` and `frameDelay` it reads.  The first argument bounds the
number of iterations.  The wait of lines 438-442 runs while
`currentTime - lastFrameTime < frameDelay`: with a delay of +infinity it is never left,
with any other delay it ends and the loop goes on to `glfwPollEvents`. -/
def playLoop (env : Env) (videoStream width height : Int) (delay : CDouble) :
    Nat → Nat → Nat → List (Option Packet) → List Event × Stop
  | 0, _, _, _ => ([], .outOfFuel)
  | fuel + 1, k, idx, reads =>
    if env.shouldClose k then ([], .windowClosed) else
    let d := decodeLoop videoStream env.rgbData0 idx reads
    let e := endTest d
    if e.ended then (d.events ++ e.events ++ [.stdout .endOfVideo], .endOfStream) else
    let t : List Event := d.events ++ e.events ++ upload width height d.newFrame
    if d.newFrame.isSome ∧ env.uploadGlErr k ≠ GL_NO_ERROR then
      (t ++ [.stderr (.glUpdateTexture (env.uploadGlErr k))], .gpuFault) else
    let t : List Event := t ++ [.drawElements]
    if env.drawGlErr k ≠ GL_NO_ERROR then
      (t ++ [.stderr (.glRender (env.drawGlErr k))], .gpuFault) else
    if delay = .posInf then (t ++ [.swapBuffers, .pace delay], .waitForever) else
    let r := playLoop env videoStream width height delay fuel (k + 1) e.next e.rest
    (t ++ [.swapBuffers, .pace delay, .pollEvents] ++ r.1, r.2)

/-! ## `main` -/

/-- Lines 447-461 of `main`: the cleanup after the loop. -/
def cleanup : List Event :=
  [.packetUnref, .release .indexBuffer, .release .vertexBuffer, .release .vertexArray,
    .release .shaderProgram, .release .texture, .release .window, .release .glfw,
    .release .pixelBuffer, .release .swsCtx, .release .rawFrame, .release .rgbFrame,
    .release .codecCtx, .release .container]

/-- One run of the program: what it did and the value `main` returned, if it returned. -/
structure Run where
  /-- Events, in order. -/
  trace : List Event
  /-- Why the playback loop stopped, if it was entered. -/
  stop : Option Stop
  /-- Return value of `main`; `none` when `main` never returns. -/
  exit : Option Int
  deriving DecidableEq, Repr

/-- The playback loop as `main` runs it: from iteration 0 and the first read, with the
start-up values of the locals. -/
def mainLoop (env : Env) : List Event × Stop :=
  playLoop env (findVideoStream env.streamTypes 0) (evenDim env.srcW) (evenDim env.srcH)
    (frameDelay env.rateNum env.rateDen) (env.reads.length + 1) 0 0 env.reads

/-- Function `main`: the start-up, the playback loop and, unless the loop stays in its
pacing wait for good, the cleanup and `return 0`. -/
def main (env : Env) : Run :=
  match setup env with
  | .returned t code => ⟨t, none, some code⟩
  | .ready t =>
    let l := mainLoop env
    if l.2 = .waitForever then ⟨t ++ l.1, some l.2, none⟩
    else ⟨t ++ l.1 ++ cleanup, some l.2, some 0⟩

/-! ## Vocabulary of the statements -/

/-- The resources acquired along a trace, in order. -/
def acquired : List Event → List Resource
  | [] => []
  | .acquire r :: t => r :: acquired t
  | _ :: t => acquired t

/-- The resources released along a trace, in order. -/
def released : List Event → List Resource
  | [] => []
  | .release r :: t => r :: released t
  | _ :: t => released t

/-- The thirteen resources of the acquisition sequence: container, codec context, scale
context, raw frame, RGB frame, pixel buffer, GLFW, window, texture, shader program, vertex
array, vertex buffer, index buffer. -/
def Resource.listed : Resource → Bool
  | .testFile => false
  | .vertexShader => false
  | .fragmentShader => false
  | _ => true

/-- Replays a trace against the set of resources currently held: `none` as soon as a
resource is acquired while held or released while not held, otherwise what is held at the
end. -/
def holdings : List Resource → List Event → Option (List Resource)
  | held, [] => some held
  | held, .acquire r :: t => if r ∈ held then none else holdings (r :: held) t
  | held, .release r :: t => if r ∈ held then holdings (held.erase r) t else none
  | held, _ :: t => holdings held t

/-- The picture size an event is given: buffer sizing and filling, texture creation and
texture update. -/
def Event.outputSize : Event → Option (Int × Int)
  | .imageGetBufferSize w h => some (w, h)
  | .imageFillArrays w h => some (w, h)
  | .texImage2D w h => some (w, h)
  | .texSubImage2D w h _ => some (w, h)
  | _ => none

/-- The delay a pacing wait or the start-up report carries. -/
def Event.delay : Event → Option CDouble
  | .pace d => some d
  | .stdout (.frameDelay d) => some d
  | _ => none

/-- The events of the presenter and of the pacing controller. -/
def Event.isPresent : Event → Bool
  | .texSubImage2D _ _ _ => true
  | .drawElements => true
  | .swapBuffers => true
  | .pace _ => true
  | .pollEvents => true
  | _ => false

/-- One texture-upload, draw and pace cycle for the picture of packet `i`. -/
def cycle (width height : Int) (delay : CDouble) (i : Nat) : List Event :=
  [.texSubImage2D width height i, .drawElements, .swapBuffers, .pace delay, .pollEvents]

/-- The packets whose picture is uploaded along a trace, in order. -/
def uploads : List Event → List Nat
  | [] => []
  | .texSubImage2D _ _ i :: t => i :: uploads t
  | _ :: t => uploads t

/-- The packets submitted to the decoder along a trace, in order. -/
def sends : List Event → List Nat
  | [] => []
  | .sendPacket i :: t => i :: sends t
  | _ :: t => sends t

/-- The packets returned by `av_read_frame` along a trace, in order. -/
def packetsRead : List Event → List Nat
  | [] => []
  | .avReadFrame (some i) :: t => i :: packetsRead t
  | _ :: t => packetsRead t

/-- A packet of the selected stream that the decoder accepts and answers with a picture. -/
def displayable (videoStream : Int) (p : Packet) : Bool :=
  decide (p.streamIndex = videoStream ∧ 0 ≤ p.sendRet ∧ p.recvRet = 0 ∧ p.frameData = true)

/-- Positions, counted from `idx`, of the displayable packets of a packet sequence. -/
def frames (videoStream : Int) : Nat → List Packet → List Nat
  | _, [] => []
  | idx, p :: rest =>
    if displayable videoStream p then idx :: frames videoStream (idx + 1) rest
    else frames videoStream (idx + 1) rest

/-- Positions, counted from `idx`, of the packets of the selected stream. -/
def videoPositions (videoStream : Int) : Nat → List Packet → List Nat
  | _, [] => []
  | idx, p :: rest =>
    if p.streamIndex = videoStream then idx :: videoPositions videoStream (idx + 1) rest
    else videoPositions videoStream (idx + 1) rest

/-- A decode fault on a packet of the selected stream: `avcodec_send_packet` fails, or
`avcodec_receive_frame` returns an error other than "needs more input". -/
def decodeFault (videoStream : Int) (p : Packet) : Prop :=
  p.streamIndex = videoStream ∧
    (p.sendRet < 0 ∨ (0 ≤ p.sendRet ∧ p.recvRet < 0 ∧ p.recvRet ≠ AVERROR_EAGAIN))

instance (videoStream : Int) (p : Packet) : Decidable (decodeFault videoStream p) := by
  unfold decodeFault; infer_instance

/-- The events of the demuxer and decoder: reads, submissions, conversions, packet
releases and diagnostics. -/
def Event.isDecode : Event → Bool
  | .avReadFrame _ => true
  | .sendPacket _ => true
  | .receiveFrame _ => true
  | .swsScale _ => true
  | .packetUnref => true
  | .stderr _ => true
  | _ => false

/-- One cycle per packet of the list, in order. -/
def cycles (width height : Int) (delay : CDouble) : List Nat → List Event
  | [] => []
  | i :: rest => cycle width height delay i ++ cycles width height delay rest

/-- Reading and dropping `n` packets from position `idx`: each is read and released. -/
def skipEvents : Nat → Nat → List Event
  | _, 0 => []
  | idx, n + 1 => [.avReadFrame (some idx), .packetUnref] ++ skipEvents (idx + 1) n

/-- An event uses the given output size and frame delay, if it uses any. -/
def Event.agrees (width height : Int) (delay : CDouble) (e : Event) : Prop :=
  (∀ s, e.outputSize = some s → s = (width, height)) ∧ (∀ d, e.delay = some d → d = delay)

/-- The events of a start-up, however it ended. -/
def Setup.trace : Setup → List Event
  | .returned t _ => t
  | .ready t => t

/-- The value returned by a start-up that ended with `return`. -/
def Setup.code : Setup → Option Int
  | .returned _ c => some c
  | .ready _ => none

/-- Acquisitions and releases. -/
def Event.isResource : Event → Bool
  | .acquire _ => true
  | .release _ => true
  | _ => false

/-- The acquisitions and releases of a trace, in order. -/
def resourceTrace (t : List Event) : List Event := t.filter Event.isResource

/-- The listed resources acquired along a trace, in order. -/
def listedAcquired (t : List Event) : List Resource := (acquired t).filter Resource.listed

/-- The listed resources released along a trace, in order. -/
def listedReleased (t : List Event) : List Resource := (released t).filter Resource.listed

/-- The order in which `main` releases, given the reverse of the acquisition order: the
same order, except that the raw frame goes before the RGB frame, and that in the cleanup
after the loop the scale context goes before both. -/
def releaseOrder (afterLoop : Bool) : List Resource → List Resource
  | .rgbFrame :: .rawFrame :: .swsCtx :: rest =>
    if afterLoop then .swsCtx :: .rawFrame :: .rgbFrame :: rest
    else .rawFrame :: .rgbFrame :: .swsCtx :: rest
  | r :: rest => r :: releaseOrder afterLoop rest
  | [] => []

/-- What a run shows of its exit path: acquisitions and releases, the value returned by
`main`, and whether the playback loop was entered. -/
def outcome (env : Env) : List Event × Option Int × Bool :=
  (resourceTrace (main env).trace, (main env).exit, (main env).stop.isSome)

/-- The same for the start-up alone: acquisitions and releases, and the returned value if
the start-up returned. -/
def Setup.outcome (s : Setup) : List Event × Option Int :=
  (resourceTrace s.trace, s.code)

/-- What `main` adds to the outcome of the start-up when it returns: nothing when the
start-up returned, the cleanup and the value 0 when the loop was entered and left. -/
def finish : List Event × Option Int → List Event × Option Int × Bool
  | (rt, some c) => (rt, some c, false)
  | (rt, none) => (rt ++ resourceTrace cleanup, some 0, true)

/-! ## Sample runs -/

/-- A packet of stream 0 that decodes to a picture. -/
def picturePacket : Packet := ⟨0, 0, 0, true⟩

/-- A packet of stream 0 for which the decoder needs more input. -/
def hungryPacket : Packet := ⟨0, 0, AVERROR_EAGAIN, false⟩

/-- A packet of stream 0 that the decoder rejects. -/
def brokenPacket : Packet := ⟨0, -1, 0, false⟩

/-- A packet of stream 1, which is not the selected stream of `sampleEnv`. -/
def soundPacket : Packet := ⟨1, 0, 0, true⟩

/-- A run in which every start-up call succeeds, on a 641x480 stream at 30000/1001
frames per second whose stream 0 is the video stream, with the given read results, no GPU
error and no close request. -/
def sampleEnv (reads : List (Option Packet)) : Env where
  fopenErr := 0
  testFile := true
  openInputRet := 0
  findStreamInfoRet := 0
  streamTypes := [0, 1]
  decoderFound := true
  codecCtxAlloc := true
  paramsRet := 0
  codecOpenRet := 0
  rateNum := 30000
  rateDen := 1001
  srcW := 641
  srcH := 480
  swsCtx := true
  frameAlloc := true
  rgbFrameAlloc := true
  numBytes := 924480
  bufferAlloc := true
  fillRet := 924480
  rgbData0 := true
  glfwInitOk := true
  window := true
  glewRet := 0
  texGen := 1
  texGlErr := 0
  vsCompiled := true
  fsCompiled := true
  linked := true
  uniformGlErr := 0
  vaoGlErr := 0
  reads := reads
  shouldClose := fun _ => false
  uploadGlErr := fun _ => 0
  drawGlErr := fun _ => 0

/-- One run for each way `main` can end as far as resources are concerned: a failure of
each start-up step in turn, and a run that reaches the loop. -/
def pathEnvs : List Env :=
  [{ sampleEnv [] with fopenErr := 2 },
   { sampleEnv [] with openInputRet := -2 },
   { sampleEnv [] with findStreamInfoRet := -1 },
   { sampleEnv [] with codecCtxAlloc := true, paramsRet := -22 },
   { sampleEnv [] with swsCtx := false },
   { sampleEnv [] with frameAlloc := false },
   { sampleEnv [] with rgbFrameAlloc := false },
   { sampleEnv [] with numBytes := -22 },
   { sampleEnv [] with fillRet := -22 },
   { sampleEnv [] with window := false },
   { sampleEnv [] with glewRet := 1 },
   { sampleEnv [] with texGlErr := 1281 },
   { sampleEnv [] with vsCompiled := false },
   { sampleEnv [] with fsCompiled := false },
   { sampleEnv [] with linked := false },
   { sampleEnv [] with uniformGlErr := 1282 },
   { sampleEnv [] with vaoGlErr := 1282 },
   sampleEnv []]

/-- The start-up outcomes of the runs of `pathEnvs`. -/
def setupOutcomes : List (List Event × Option Int) :=
  pathEnvs.map fun e => (setup e).outcome

/-- A run in which the first picture is uploaded and `glGetError` then reports
`GL_INVALID_ENUM`. -/
def gpuFaultEnv : Env :=
  { sampleEnv [some picturePacket] with uploadGlErr := fun _ => 1280 }

/-- A run on a stream whose average frame rate is 0/1, the value the container library
gives for an unknown rate, with two displayable packets. -/
def stalledEnv : Env :=
  { sampleEnv [some picturePacket, some picturePacket] with rateNum := 0, rateDen := 1 }

/-- A run in which the first picture is drawn and `glGetError` then reports
`GL_INVALID_OPERATION`. -/
def drawFaultEnv : Env :=
  { sampleEnv [some picturePacket] with drawGlErr := fun _ => 1282 }

/-! ## Frame delay -/

theorem divInts_of_ne_zero (a b : Int) (hb : b ≠ 0) :
    CDouble.divInts a b = .finite ((a : ℚ) / (b : ℚ)) := by
  simp [CDouble.divInts, hb, Rat.divInt_eq_div]

/-- C2, as stated, fails: for the rate 30/0 the numerator is not zero, yet the delay is
1.0 and not den/num = 0. -/
theorem frameDelay_den_zero_not_quotient :
    (30 : Int) ≠ 0 ∧ frameDelay 30 0 = .finite 1 ∧
      frameDelay 30 0 ≠ .finite (((0 : Int) : ℚ) / ((30 : Int) : ℚ)) := by
  refine ⟨by decide, by decide, ?_⟩
  simp [frameDelay]

/-- C2 (amended): the frame delay is 1.0 when the denominator is zero, and den/num when
neither the numerator nor the denominator is zero. -/
theorem frameDelay_guard_on_den (num den : Int) :
    (den = 0 → frameDelay num den = .finite 1) ∧
      (num ≠ 0 → den ≠ 0 → frameDelay num den = .finite ((den : ℚ) / (num : ℚ))) := by
  constructor
  · intro h
    simp [frameDelay, h]
  · intro hn hd
    simp [frameDelay, hd, divInts_of_ne_zero den num hn]

/-- Witness of `frameDelay_guard_on_den` at 30000/1001 and at 30/0. -/
theorem frameDelay_guard_on_den_witness :
    frameDelay 30000 1001 = .finite (((1001 : Int) : ℚ) / ((30000 : Int) : ℚ)) ∧
      frameDelay 30 0 = .finite 1 :=
  ⟨(frameDelay_guard_on_den 30000 1001).2 (by decide) (by decide),
    (frameDelay_guard_on_den 30 0).1 rfl⟩

/-! ## Output size -/

theorem tmod_two_eq_zero_iff (x : Int) : Int.tmod x 2 = 0 ↔ x % 2 = 0 := by
  rw [← Int.dvd_iff_tmod_eq_zero]
  omega

theorem evenDim_even (src : Int) : Int.tmod (evenDim src) 2 = 0 := by
  unfold evenDim
  split
  · next h =>
    rw [Ne, tmod_two_eq_zero_iff] at h
    rw [tmod_two_eq_zero_iff]
    unfold wrapInt32
    omega
  · next h =>
    simpa using h

theorem evenDim_of_nonneg (src : Int) (h0 : 0 ≤ src) (h1 : src < 2 ^ 31 - 1) :
    evenDim src = src + Int.tmod src 2 := by
  unfold evenDim
  rw [Int.tmod_eq_emod h0 (by decide)]
  split
  · next h =>
    unfold wrapInt32
    omega
  · next h =>
    omega

/-! ## Projections of traces -/

theorem uploads_append (a b : List Event) : uploads (a ++ b) = uploads a ++ uploads b := by
  induction a with
  | nil => rfl
  | cons e t ih => cases e <;> simp [uploads, ih]

theorem sends_append (a b : List Event) : sends (a ++ b) = sends a ++ sends b := by
  induction a with
  | nil => rfl
  | cons e t ih => cases e <;> simp [sends, ih]

theorem packetsRead_append (a b : List Event) :
    packetsRead (a ++ b) = packetsRead a ++ packetsRead b := by
  induction a with
  | nil => rfl
  | cons e t ih =>
    cases e with
    | avReadFrame r => cases r <;> simp [packetsRead, ih]
    | _ => simp [packetsRead, ih]

theorem resourceTrace_append (a b : List Event) :
    resourceTrace (a ++ b) = resourceTrace a ++ resourceTrace b := by
  simp [resourceTrace]

theorem filter_isPresent_of_decode (l : List Event) (h : ∀ e ∈ l, e.isDecode = true) :
    l.filter Event.isPresent = [] := by
  induction l with
  | nil => rfl
  | cons e t ih =>
    have he := h e (List.mem_cons_self _ _)
    have ht := ih (fun x hx => h x (List.mem_cons_of_mem _ hx))
    cases e <;> simp_all [Event.isDecode, Event.isPresent]

theorem uploads_cycles (w h : Int) (d : CDouble) (l : List Nat) :
    uploads (cycles w h d l) = l := by
  induction l with
  | nil => rfl
  | cons i t ih => simp [cycles, cycle, uploads, ih]

theorem uploads_filter_isPresent (l : List Event) :
    uploads (l.filter Event.isPresent) = uploads l := by
  induction l with
  | nil => rfl
  | cons e t ih => cases e <;> simp [List.filter, Event.isPresent, uploads, ih]

/-! ## The inner loop -/

@[simp] theorem after_events (d : Decoded) (evs : List Event) :
    (d.after evs).events = evs ++ d.events := rfl

@[simp] theorem after_newFrame (d : Decoded) (evs : List Event) :
    (d.after evs).newFrame = d.newFrame := rfl

@[simp] theorem after_next (d : Decoded) (evs : List Event) :
    (d.after evs).next = d.next := rfl

@[simp] theorem after_rest (d : Decoded) (evs : List Event) :
    (d.after evs).rest = d.rest := rfl

theorem decodeLoop_isDecode (vs : Int) (rgb : Bool) (reads : List (Option Packet)) :
    ∀ idx, ∀ e ∈ (decodeLoop vs rgb idx reads).events, e.isDecode = true := by
  induction reads with
  | nil => intro idx e he; simp [decodeLoop] at he; subst he; rfl
  | cons r rest ih =>
    intro idx e he
    cases r with
    | none => simp [decodeLoop] at he; subst he; rfl
    | some p =>
      unfold decodeLoop at he
      split_ifs at he <;>
        simp only [after_events, List.mem_append, List.mem_cons, List.mem_singleton,
          List.not_mem_nil, or_false] at he <;>
        rcases he with he | he <;>
        first
          | exact ih _ _ he
          | (rcases he with rfl | rfl | rfl | rfl | rfl | rfl <;> rfl)

theorem decodeLoop_cons_some (vs : Int) (rgb : Bool) (idx : Nat) (p : Packet)
    (rest : List (Option Packet)) :
    decodeLoop vs rgb idx (some p :: rest) =
      if p.streamIndex = vs then
        if p.sendRet < 0 then
          (decodeLoop vs rgb (idx + 1) rest).after
            [.avReadFrame (some idx), .sendPacket idx, .stderr .sendPacket, .packetUnref]
        else if p.recvRet = 0 ∧ p.frameData = true then
          if rgb then
            ⟨[.avReadFrame (some idx), .sendPacket idx, .receiveFrame idx, .swsScale idx,
              .packetUnref], some idx, idx + 1, rest⟩
          else
            ⟨[.avReadFrame (some idx), .sendPacket idx, .receiveFrame idx, .swsScale idx,
              .stderr .rgbNull, .packetUnref], none, idx + 1, rest⟩
        else if p.recvRet < 0 ∧ p.recvRet ≠ AVERROR_EAGAIN then
          (decodeLoop vs rgb (idx + 1) rest).after
            [.avReadFrame (some idx), .sendPacket idx, .receiveFrame idx,
              .stderr (.receiveFrame p.recvRet), .packetUnref, .packetUnref]
        else
          (decodeLoop vs rgb (idx + 1) rest).after
            [.avReadFrame (some idx), .sendPacket idx, .receiveFrame idx, .packetUnref,
              .packetUnref]
      else
        (decodeLoop vs rgb (idx + 1) rest).after [.avReadFrame (some idx), .packetUnref] := by
  rw [decodeLoop]

theorem displayable_iff (vs : Int) (p : Packet) :
    displayable vs p = true ↔
      p.streamIndex = vs ∧ 0 ≤ p.sendRet ∧ p.recvRet = 0 ∧ p.frameData = true := by
  simp [displayable]

/-- The inner loop on a sequence of successful reads, with a usable RGB buffer: either no
packet is displayable and the sequence is used up, or the loop stops right after the first
displayable packet. -/
theorem decodeLoop_spec (vs : Int) (pkts : List Packet) :
    ∀ idx,
      ((decodeLoop vs true idx (pkts.map some)).newFrame = none ∧
        (decodeLoop vs true idx (pkts.map some)).rest = [] ∧
        frames vs idx pkts = [] ∧
        packetsRead (decodeLoop vs true idx (pkts.map some)).events =
          List.range' idx pkts.length) ∨
      (∃ n post,
        (decodeLoop vs true idx (pkts.map some)).newFrame = some (idx + n) ∧
        (decodeLoop vs true idx (pkts.map some)).next = idx + n + 1 ∧
        (decodeLoop vs true idx (pkts.map some)).rest = post.map some ∧
        post.length + n + 1 = pkts.length ∧
        frames vs idx pkts = (idx + n) :: frames vs (idx + n + 1) post ∧
        packetsRead (decodeLoop vs true idx (pkts.map some)).events =
          List.range' idx (n + 1)) := by
  induction pkts with
  | nil =>
    intro idx
    left
    simp [decodeLoop, frames, packetsRead]
  | cons p rest ih =>
    intro idx
    by_cases hd : displayable vs p = true
    · right
      obtain ⟨h1, h2, h3, h4⟩ := (displayable_iff vs p).1 hd
      refine ⟨0, rest, ?_⟩
      have hs : ¬ p.sendRet < 0 := by omega
      simp [decodeLoop, frames, packetsRead, hd, h1, h3, h4, hs]
    · have hskip : ∃ evs, decodeLoop vs true idx ((p :: rest).map some) =
          (decodeLoop vs true (idx + 1) (rest.map some)).after
            (Event.avReadFrame (some idx) :: evs) ∧ packetsRead evs = [] := by
        rw [displayable_iff] at hd
        simp only [List.map_cons]
        rw [decodeLoop_cons_some]
        simp only [if_true]
        split_ifs with c1 c2 c3 c4
        · exact ⟨_, rfl, rfl⟩
        · exact absurd ⟨c1, by omega, c3.1, c3.2⟩ hd
        · exact ⟨_, rfl, rfl⟩
        · exact ⟨_, rfl, rfl⟩
        · exact ⟨_, rfl, rfl⟩
      obtain ⟨evs, hev, hpr⟩ := hskip
      have hfr : frames vs idx (p :: rest) = frames vs (idx + 1) rest := by
        simp [frames, hd]
      rw [hev, hfr]
      simp only [after_newFrame, after_rest, after_next, after_events, List.length_cons]
      rcases ih (idx + 1) with ⟨a1, a2, a3, a4⟩ | ⟨n, post, b1, b2, b3, b4, b5, b6⟩
      · left
        refine ⟨a1, a2, a3, ?_⟩
        rw [List.cons_append, packetsRead, packetsRead_append, hpr, List.nil_append, a4,
          List.range'_succ]
      · right
        refine ⟨n + 1, post, ?_, ?_, b3, by omega, ?_, ?_⟩
        · rw [b1]; congr 1; omega
        · rw [b2]; omega
        · rw [b5]
          have e1 : idx + 1 + n = idx + (n + 1) := by omega
          rw [e1]
        · rw [List.cons_append, packetsRead, packetsRead_append, hpr, List.nil_append, b6,
            List.range'_succ idx (n + 1)]

/-- The inner loop on packets that all belong to other streams reads and drops every one
of them, submits none and ends on the failing read. -/
theorem decodeLoop_foreign (vs : Int) (rgb : Bool) (pkts : List Packet)
    (hf : ∀ p ∈ pkts, p.streamIndex ≠ vs) :
    ∀ idx, decodeLoop vs rgb idx (pkts.map some) =
      ⟨skipEvents idx pkts.length ++ [.avReadFrame none], none, idx + pkts.length, []⟩ := by
  induction pkts with
  | nil => intro idx; simp [decodeLoop, skipEvents]
  | cons p rest ih =>
    intro idx
    have hp : p.streamIndex ≠ vs := hf p (List.mem_cons_self _ _)
    have hrest := ih (fun q hq => hf q (List.mem_cons_of_mem _ hq)) (idx + 1)
    simp only [List.map_cons, List.length_cons]
    rw [decodeLoop_cons_some, if_neg hp, hrest]
    simp [Decoded.after, skipEvents]
    omega

theorem decodeLoop_rest_length (vs : Int) (rgb : Bool) (reads : List (Option Packet)) :
    ∀ idx, (reads = [] ∧ (decodeLoop vs rgb idx reads).newFrame = none ∧
        (decodeLoop vs rgb idx reads).rest = []) ∨
      (decodeLoop vs rgb idx reads).rest.length < reads.length := by
  induction reads with
  | nil => intro idx; left; simp [decodeLoop]
  | cons r rest ih =>
    intro idx
    right
    cases r with
    | none => simp [decodeLoop]
    | some p =>
      have h := ih (idx + 1)
      have hle : (decodeLoop vs rgb (idx + 1) rest).rest.length < rest.length + 1 := by
        rcases h with ⟨h1, _, h3⟩ | h
        · rw [h3]; simp
        · omega
      rw [decodeLoop_cons_some]
      split_ifs <;> simp only [after_rest, List.length_cons] <;> first | exact hle | omega

theorem endTest_rest_length (d : Decoded) :
    (endTest d).rest.length ≤ d.rest.length := by
  unfold endTest
  split <;> simp_all

theorem endTest_not_ended (vs : Int) (rgb : Bool) (reads : List (Option Packet)) (idx : Nat)
    (h : (endTest (decodeLoop vs rgb idx reads)).ended = false) :
    (endTest (decodeLoop vs rgb idx reads)).rest.length < reads.length := by
  rcases decodeLoop_rest_length vs rgb reads idx with ⟨_, h2, h3⟩ | hlt
  · unfold endTest at h
    rw [h2, h3] at h
    simp at h
  · exact Nat.lt_of_le_of_lt (endTest_rest_length _) hlt

/-! ## The playback loop -/

theorem playLoop_succ (env : Env) (vs w h : Int) (delay : CDouble) (fuel k idx : Nat)
    (reads : List (Option Packet)) :
    playLoop env vs w h delay (fuel + 1) k idx reads =
      if env.shouldClose k then ([], .windowClosed) else
      if (endTest (decodeLoop vs env.rgbData0 idx reads)).ended then
        ((decodeLoop vs env.rgbData0 idx reads).events ++
          (endTest (decodeLoop vs env.rgbData0 idx reads)).events ++ [.stdout .endOfVideo],
          .endOfStream) else
      if (decodeLoop vs env.rgbData0 idx reads).newFrame.isSome ∧
          env.uploadGlErr k ≠ GL_NO_ERROR then
        ((decodeLoop vs env.rgbData0 idx reads).events ++
          (endTest (decodeLoop vs env.rgbData0 idx reads)).events ++
          upload w h (decodeLoop vs env.rgbData0 idx reads).newFrame ++
          [.stderr (.glUpdateTexture (env.uploadGlErr k))], .gpuFault) else
      if env.drawGlErr k ≠ GL_NO_ERROR then
        ((decodeLoop vs env.rgbData0 idx reads).events ++
          (endTest (decodeLoop vs env.rgbData0 idx reads)).events ++
          upload w h (decodeLoop vs env.rgbData0 idx reads).newFrame ++ [.drawElements] ++
          [.stderr (.glRender (env.drawGlErr k))], .gpuFault) else
      if delay = .posInf then
        ((decodeLoop vs env.rgbData0 idx reads).events ++
          (endTest (decodeLoop vs env.rgbData0 idx reads)).events ++
          upload w h (decodeLoop vs env.rgbData0 idx reads).newFrame ++ [.drawElements] ++
          [.swapBuffers, .pace delay], .waitForever) else
      ((decodeLoop vs env.rgbData0 idx reads).events ++
          (endTest (decodeLoop vs env.rgbData0 idx reads)).events ++
          upload w h (decodeLoop vs env.rgbData0 idx reads).newFrame ++ [.drawElements] ++
          [.swapBuffers, .pace delay, .pollEvents] ++
          (playLoop env vs w h delay fuel (k + 1)
            (endTest (decodeLoop vs env.rgbData0 idx reads)).next
            (endTest (decodeLoop vs env.rgbData0 idx reads)).rest).1,
        (playLoop env vs w h delay fuel (k + 1)
            (endTest (decodeLoop vs env.rgbData0 idx reads)).next
            (endTest (decodeLoop vs env.rgbData0 idx reads)).rest).2) := by
  rw [playLoop]

/-- The bound on the number of iterations is never reached: each iteration that does not
stop the loop uses up at least one read result. -/
theorem playLoop_fuel (env : Env) (vs w h : Int) (delay : CDouble) :
    ∀ fuel k idx reads, reads.length < fuel →
      (playLoop env vs w h delay fuel k idx reads).2 ≠ .outOfFuel := by
  intro fuel
  induction fuel with
  | zero => intro k idx reads hlt; omega
  | succ fuel ih =>
    intro k idx reads hlt
    rw [playLoop_succ]
    split_ifs with c1 c2 c3 c4 c5 <;> try simp
    apply ih
    have := endTest_not_ended vs env.rgbData0 reads idx (by simpa using c2)
    omega

/-- The loop of `main` stops for one of the three reasons the source has. -/
theorem mainLoop_stops (env : Env) : (mainLoop env).2 ≠ .outOfFuel :=
  playLoop_fuel env _ _ _ _ _ _ _ _ (Nat.lt_succ_self _)

/-- With a delay other than +infinity, a usable RGB buffer, no close request, no GPU error
and no failing read before the end of the container, the loop ends on end-of-stream, reads every packet once, and its
presenter and pacing events are one cycle per displayable packet, in order. -/
theorem playLoop_quiet (env : Env) (vs w h : Int) (delay : CDouble)
    (hwait : delay ≠ .posInf)
    (hrgb : env.rgbData0 = true) (hopen : ∀ k, env.shouldClose k = false)
    (hup : ∀ k, env.uploadGlErr k = GL_NO_ERROR)
    (hdraw : ∀ k, env.drawGlErr k = GL_NO_ERROR) :
    ∀ fuel (pkts : List Packet) k idx, pkts.length < fuel →
      (playLoop env vs w h delay fuel k idx (pkts.map some)).2 = .endOfStream ∧
      (playLoop env vs w h delay fuel k idx (pkts.map some)).1.filter Event.isPresent =
        cycles w h delay (frames vs idx pkts) ∧
      packetsRead (playLoop env vs w h delay fuel k idx (pkts.map some)).1 =
        List.range' idx pkts.length := by
  intro fuel
  induction fuel with
  | zero => intro pkts k idx hlt; omega
  | succ fuel ih =>
    intro pkts k idx hlt
    have hdec := decodeLoop_isDecode vs true (pkts.map some) idx
    have hfil := filter_isPresent_of_decode _ hdec
    rw [playLoop_succ, hrgb]
    simp only [hopen k, hup k, hdraw k, hwait, ne_eq, not_true_eq_false, and_false,
      if_false, Bool.false_eq_true]
    rcases decodeLoop_spec vs pkts idx with ⟨a1, a2, a3, a4⟩ | ⟨n, post, b1, b2, b3, b4, b5, b6⟩
    · have he : endTest (decodeLoop vs true idx (pkts.map some)) =
          ⟨[.avReadFrame none], true, (decodeLoop vs true idx (pkts.map some)).next, []⟩ := by
        unfold endTest
        rw [a1, a2]
      rw [he]
      simp only [if_true]
      refine ⟨trivial, ?_, ?_⟩
      · rw [a3]
        simp [List.filter_append, hfil, Event.isPresent, cycles]
      · simp [packetsRead_append, a4, packetsRead]
    · have he : endTest (decodeLoop vs true idx (pkts.map some)) =
          ⟨[], false, idx + n + 1, post.map some⟩ := by
        unfold endTest
        rw [b1, b2, b3]
      rw [he, b1]
      simp only [Bool.false_eq_true, if_false]
      obtain ⟨r1, r2, r3⟩ := ih post (k + 1) (idx + n + 1) (by omega)
      refine ⟨r1, ?_, ?_⟩
      · rw [b5]
        simp [List.filter_append, hfil, Event.isPresent, cycles, cycle, upload, r2]
      · simp only [packetsRead_append, b6, r3, upload, packetsRead, List.append_nil]
        have := List.range'_append idx (n + 1) post.length 1
        simp only [Nat.one_mul] at this
        rw [show idx + n + 1 = idx + (n + 1) from by omega, this,
          show post.length + (n + 1) = pkts.length from by omega]

theorem agrees_of_decode (w h : Int) (delay : CDouble) (e : Event)
    (he : e.isDecode = true) : e.agrees w h delay := by
  cases e <;> simp_all [Event.isDecode, Event.agrees, Event.outputSize, Event.delay]

/-- Every event of the playback loop uses the width, the height and the delay the loop
was started with. -/
theorem playLoop_agrees (env : Env) (vs w h : Int) (delay : CDouble) :
    ∀ fuel k idx reads,
      ∀ e ∈ (playLoop env vs w h delay fuel k idx reads).1, e.agrees w h delay := by
  intro fuel
  induction fuel with
  | zero => intro k idx reads e he; simp [playLoop] at he
  | succ fuel ih =>
    intro k idx reads
    have hdec : ∀ e ∈ (decodeLoop vs env.rgbData0 idx reads).events, e.agrees w h delay :=
      fun e he => agrees_of_decode w h delay e (decodeLoop_isDecode vs _ reads idx e he)
    have hend : ∀ e ∈ (endTest (decodeLoop vs env.rgbData0 idx reads)).events,
        e.agrees w h delay := by
      intro e he
      unfold endTest at he
      split at he <;> simp at he <;> subst he <;>
        simp [Event.agrees, Event.outputSize, Event.delay]
    have hupl : ∀ e ∈ upload w h (decodeLoop vs env.rgbData0 idx reads).newFrame,
        e.agrees w h delay := by
      intro e he
      cases hn : (decodeLoop vs env.rgbData0 idx reads).newFrame <;>
        rw [hn] at he <;> simp [upload] at he
      subst he
      simp [Event.agrees, Event.outputSize, Event.delay]
    have hrec := ih (k + 1) (endTest (decodeLoop vs env.rgbData0 idx reads)).next
      (endTest (decodeLoop vs env.rgbData0 idx reads)).rest
    rw [playLoop_succ]
    split_ifs <;>
      simp only [List.forall_mem_append, List.forall_mem_cons, List.not_mem_nil,
        false_implies, implies_true, and_true] <;>
      repeat' constructor
    all_goals first
      | exact hdec
      | exact hend
      | exact hupl
      | exact hrec
      | simp [Event.agrees, Event.outputSize, Event.delay]

theorem resourceTrace_of_decode (l : List Event) (h : ∀ e ∈ l, e.isDecode = true) :
    resourceTrace l = [] := by
  induction l with
  | nil => rfl
  | cons e t ih =>
    have he := h e (List.mem_cons_self _ _)
    have ht := ih (fun x hx => h x (List.mem_cons_of_mem _ hx))
    unfold resourceTrace at ht ⊢
    cases e <;> simp_all [Event.isDecode, Event.isResource]

/-- The playback loop acquires and releases none of the resources. -/
theorem playLoop_resourceTrace (env : Env) (vs w h : Int) (delay : CDouble) :
    ∀ fuel k idx reads, resourceTrace (playLoop env vs w h delay fuel k idx reads).1 = [] := by
  intro fuel
  induction fuel with
  | zero => intro k idx reads; simp [playLoop, resourceTrace]
  | succ fuel ih =>
    intro k idx reads
    have hd := resourceTrace_of_decode _ (decodeLoop_isDecode vs env.rgbData0 reads idx)
    have hend : resourceTrace (endTest (decodeLoop vs env.rgbData0 idx reads)).events = [] := by
      unfold endTest
      split <;> simp [resourceTrace, Event.isResource]
    have hupl :
        resourceTrace (upload w h (decodeLoop vs env.rgbData0 idx reads).newFrame) = [] := by
      cases (decodeLoop vs env.rgbData0 idx reads).newFrame <;>
        simp [upload, resourceTrace, Event.isResource]
    have hrec := ih (k + 1) (endTest (decodeLoop vs env.rgbData0 idx reads)).next
      (endTest (decodeLoop vs env.rgbData0 idx reads)).rest
    have hnil : resourceTrace [] = [] := rfl
    have h1 : resourceTrace [Event.stdout Msg.endOfVideo] = [] := by
      simp [resourceTrace, Event.isResource]
    have h2 : ∀ x, resourceTrace [Event.stderr x] = [] := by
      intro x; simp [resourceTrace, Event.isResource]
    have h3 : resourceTrace [Event.drawElements] = [] := by
      simp [resourceTrace, Event.isResource]
    have h4 : resourceTrace [Event.swapBuffers, Event.pace delay, Event.pollEvents] = [] := by
      simp [resourceTrace, Event.isResource]
    have h5 : resourceTrace [Event.swapBuffers, Event.pace delay] = [] := by
      simp [resourceTrace, Event.isResource]
    rw [playLoop_succ]
    split_ifs <;>
      simp only [resourceTrace_append, hd, hend, hupl, hrec, hnil, h1, h2, h3, h4, h5,
        List.append_nil]

/-! ## Displayable packets -/

theorem mem_frames (vs : Int) (pkts : List Packet) :
    ∀ idx i, i ∈ frames vs idx pkts ↔
      idx ≤ i ∧ ∃ p, pkts[i - idx]? = some p ∧ displayable vs p = true := by
  induction pkts with
  | nil => intro idx i; simp [frames]
  | cons q rest ih =>
    intro idx i
    by_cases hq : displayable vs q = true
    · simp only [frames, hq, if_true, List.mem_cons, ih]
      constructor
      · rintro (rfl | ⟨h1, p, h2, h3⟩)
        · exact ⟨Nat.le_refl _, q, by simp, hq⟩
        · refine ⟨by omega, p, ?_, h3⟩
          rw [show i - idx = (i - (idx + 1)) + 1 from by omega]
          simpa using h2
      · rintro ⟨h1, p, h2, h3⟩
        by_cases hi : i = idx
        · exact Or.inl hi
        · right
          refine ⟨by omega, p, ?_, h3⟩
          rw [show i - idx = (i - (idx + 1)) + 1 from by omega] at h2
          simpa using h2
    · have hq' : displayable vs q = false := by simpa using hq
      simp only [frames, hq', Bool.false_eq_true, if_false, ih]
      constructor
      · rintro ⟨h1, p, h2, h3⟩
        refine ⟨by omega, p, ?_, h3⟩
        rw [show i - idx = (i - (idx + 1)) + 1 from by omega]
        simpa using h2
      · rintro ⟨h1, p, h2, h3⟩
        have hi : i ≠ idx := by
          rintro rfl
          simp at h2
          subst h2
          exact hq h3
        refine ⟨by omega, p, ?_, h3⟩
        rw [show i - idx = (i - (idx + 1)) + 1 from by omega] at h2
        simpa using h2

theorem frames_length (vs : Int) (pkts : List Packet) :
    ∀ idx, (frames vs idx pkts).length = (pkts.filter (displayable vs)).length := by
  induction pkts with
  | nil => intro idx; rfl
  | cons q rest ih =>
    intro idx
    by_cases hq : displayable vs q = true <;> simp [frames, hq, List.filter, ih]

theorem frames_lower (vs : Int) (pkts : List Packet) :
    ∀ idx, ∀ i ∈ frames vs idx pkts, idx ≤ i := by
  intro idx i hi
  exact ((mem_frames vs pkts idx i).1 hi).1

theorem frames_nodup (vs : Int) (pkts : List Packet) :
    ∀ idx, (frames vs idx pkts).Nodup := by
  induction pkts with
  | nil => intro idx; simp [frames]
  | cons q rest ih =>
    intro idx
    by_cases hq : displayable vs q = true
    · simp only [frames, hq, if_true, List.nodup_cons]
      refine ⟨?_, ih _⟩
      intro hmem
      have := frames_lower vs rest (idx + 1) idx hmem
      omega
    · have hq' : displayable vs q = false := by simpa using hq
      simp only [frames, hq', Bool.false_eq_true, if_false]
      exact ih _

theorem uploads_eq_frames (env : Env) (pkts : List Packet)
    (hreads : env.reads = pkts.map some)
    (hwait : frameDelay env.rateNum env.rateDen ≠ .posInf)
    (hrgb : env.rgbData0 = true) (hopen : ∀ k, env.shouldClose k = false)
    (hup : ∀ k, env.uploadGlErr k = GL_NO_ERROR)
    (hdraw : ∀ k, env.drawGlErr k = GL_NO_ERROR) :
    uploads (mainLoop env).1 = frames (findVideoStream env.streamTypes 0) 0 pkts := by
  have h := (playLoop_quiet env (findVideoStream env.streamTypes 0) (evenDim env.srcW)
    (evenDim env.srcH) (frameDelay env.rateNum env.rateDen) hwait hrgb hopen hup hdraw
    (pkts.length + 1) pkts 0 0 (Nat.lt_succ_self _)).2.1
  unfold mainLoop
  rw [hreads, List.length_map, ← uploads_filter_isPresent, h, uploads_cycles]

/-- The inner loop on a sequence of successful reads submits each packet of the selected
stream that it reads, once. -/
theorem decodeLoop_sends (vs : Int) (rgb : Bool) (pkts : List Packet) :
    ∀ idx, ∃ post,
      (decodeLoop vs rgb idx (pkts.map some)).rest = post.map some ∧
      videoPositions vs idx pkts =
        sends (decodeLoop vs rgb idx (pkts.map some)).events ++
          videoPositions vs (decodeLoop vs rgb idx (pkts.map some)).next post := by
  induction pkts with
  | nil => intro idx; exact ⟨[], by simp [decodeLoop, videoPositions, sends]⟩
  | cons p rest ih =>
    intro idx
    obtain ⟨post, h1, h2⟩ := ih (idx + 1)
    simp only [List.map_cons]
    rw [decodeLoop_cons_some]
    split_ifs with c1 c2 c3 c4 c5
    · exact ⟨post, by simpa using h1, by simp [videoPositions, c1, sends, sends_append, h2]⟩
    · exact ⟨rest, rfl, by simp [videoPositions, c1, sends]⟩
    · exact ⟨rest, rfl, by simp [videoPositions, c1, sends]⟩
    · exact ⟨post, by simpa using h1, by simp [videoPositions, c1, sends, sends_append, h2]⟩
    · exact ⟨post, by simpa using h1, by simp [videoPositions, c1, sends, sends_append, h2]⟩
    · exact ⟨post, by simpa using h1, by simp [videoPositions, c1, sends, sends_append, h2]⟩

/-- When the delay is not +infinity, reads fail only at the end of the container, the RGB
buffer is usable, no GPU error is reported and the window is never asked to close, the
loop submits every packet of the selected stream to the decoder exactly once, in order. -/
theorem playLoop_sends (env : Env) (vs w h : Int) (delay : CDouble)
    (hwait : delay ≠ .posInf)
    (hrgb : env.rgbData0 = true) (hopen : ∀ k, env.shouldClose k = false)
    (hup : ∀ k, env.uploadGlErr k = GL_NO_ERROR)
    (hdraw : ∀ k, env.drawGlErr k = GL_NO_ERROR) :
    ∀ fuel (pkts : List Packet) k idx, pkts.length < fuel →
      sends (playLoop env vs w h delay fuel k idx (pkts.map some)).1 =
        videoPositions vs idx pkts := by
  intro fuel
  induction fuel with
  | zero => intro pkts k idx hlt; omega
  | succ fuel ih =>
    intro pkts k idx hlt
    obtain ⟨post', s1, s2⟩ := decodeLoop_sends vs true pkts idx
    rw [playLoop_succ, hrgb]
    simp only [hopen k, hup k, hdraw k, hwait, ne_eq, not_true_eq_false, and_false,
      if_false, Bool.false_eq_true]
    rcases decodeLoop_spec vs pkts idx with ⟨a1, a2, _, _⟩ | ⟨n, post, b1, b2, b3, b4, _, _⟩
    · have he : endTest (decodeLoop vs true idx (pkts.map some)) =
          ⟨[.avReadFrame none], true, (decodeLoop vs true idx (pkts.map some)).next, []⟩ := by
        unfold endTest
        rw [a1, a2]
      have hp : post' = [] := by
        rw [a2] at s1
        cases post' with
        | nil => rfl
        | cons x xs => simp at s1
      rw [he, s2, hp]
      simp [sends_append, sends, videoPositions]
    · have he : endTest (decodeLoop vs true idx (pkts.map some)) =
          ⟨[], false, idx + n + 1, post.map some⟩ := by
        unfold endTest
        rw [b1, b2, b3]
      have hp : post' = post := by
        rw [b3] at s1
        exact (List.map_injective_iff.2 (Option.some_injective _) s1).symm
      rw [he, b1, s2, hp, b2]
      simp only [Bool.false_eq_true, if_false]
      have := ih post (k + 1) (idx + n + 1) (by omega)
      simp [sends_append, sends, upload, this]

/-- When the delay is not +infinity, reads fail only at the end of the container, the RGB
buffer is usable, no GPU error is reported and the window is never asked to close, the
loop of `main` reads every packet once and submits every packet of the selected stream once, in order. -/
theorem mainLoop_sends_each_video_packet_once (env : Env) (pkts : List Packet)
    (hreads : env.reads = pkts.map some)
    (hwait : frameDelay env.rateNum env.rateDen ≠ .posInf)
    (hrgb : env.rgbData0 = true) (hopen : ∀ k, env.shouldClose k = false)
    (hup : ∀ k, env.uploadGlErr k = GL_NO_ERROR)
    (hdraw : ∀ k, env.drawGlErr k = GL_NO_ERROR) :
    packetsRead (mainLoop env).1 = List.range pkts.length ∧
      sends (mainLoop env).1 = videoPositions (findVideoStream env.streamTypes 0) 0 pkts := by
  unfold mainLoop
  rw [hreads, List.length_map]
  refine ⟨?_, playLoop_sends env _ _ _ _ hwait hrgb hopen hup hdraw _ pkts 0 0
    (Nat.lt_succ_self _)⟩
  rw [(playLoop_quiet env _ _ _ _ hwait hrgb hopen hup hdraw _ pkts 0 0
    (Nat.lt_succ_self _)).2.2,
    List.range_eq_range']

/-! ## Claims about the playback loop -/

/-- When the delay is not +infinity, every read up to the end of the container succeeds,
the RGB buffer is usable, no GPU error is reported and the window is never asked to close,
the playback loop stops on end-of-stream and its presenter and pacing events are exactly
one upload-draw-swap-pace-poll cycle for each of the `N` packets that the decoder answers
with a picture, in order.  Pictures that the decoder keeps for later
`avcodec_receive_frame` calls are not counted: `main` never asks for them. -/
theorem loop_presents_each_returned_picture_once (env : Env) (pkts : List Packet) (N : Nat)
    (hreads : env.reads = pkts.map some)
    (hN : (pkts.filter (displayable (findVideoStream env.streamTypes 0))).length = N)
    (hwait : frameDelay env.rateNum env.rateDen ≠ .posInf)
    (hrgb : env.rgbData0 = true) (hopen : ∀ k, env.shouldClose k = false)
    (hup : ∀ k, env.uploadGlErr k = GL_NO_ERROR)
    (hdraw : ∀ k, env.drawGlErr k = GL_NO_ERROR) :
    (mainLoop env).2 = .endOfStream ∧
      (mainLoop env).1.filter Event.isPresent =
        cycles (evenDim env.srcW) (evenDim env.srcH) (frameDelay env.rateNum env.rateDen)
          (frames (findVideoStream env.streamTypes 0) 0 pkts) ∧
      (frames (findVideoStream env.streamTypes 0) 0 pkts).length = N ∧
      (frames (findVideoStream env.streamTypes 0) 0 pkts).Nodup ∧
      (∀ i, i ∈ frames (findVideoStream env.streamTypes 0) 0 pkts ↔
        ∃ p, pkts[i]? = some p ∧ displayable (findVideoStream env.streamTypes 0) p = true) ∧
      uploads (mainLoop env).1 = frames (findVideoStream env.streamTypes 0) 0 pkts ∧
      (uploads (mainLoop env).1).length = N := by
  have h := playLoop_quiet env (findVideoStream env.streamTypes 0) (evenDim env.srcW)
    (evenDim env.srcH) (frameDelay env.rateNum env.rateDen) hwait hrgb hopen hup hdraw
    (pkts.length + 1) pkts 0 0 (Nat.lt_succ_self _)
  have hu := uploads_eq_frames env pkts hreads hwait hrgb hopen hup hdraw
  have hl := frames_length (findVideoStream env.streamTypes 0) pkts 0
  refine ⟨?_, ?_, by rw [hl, hN], frames_nodup _ _ _, ?_, hu, by rw [hu, hl, hN]⟩
  · unfold mainLoop
    rw [hreads, List.length_map]
    exact h.1
  · unfold mainLoop
    rw [hreads, List.length_map]
    exact h.2.1
  · intro i
    rw [mem_frames]
    simp

/-- C5 fails on the code: on a stream whose average frame rate is 0/1, with two
displayable packets, no decode fault, no GPU error and no close request, the frame delay
is +infinity; the loop reads, uploads and draws the first picture, enters the pacing wait
and stays there: one upload instead of two, the second packet is never read,
end-of-stream is never reached and `main` does not return. -/
theorem infinite_delay_stalls_after_first_frame :
    stalledEnv.reads = [picturePacket, picturePacket].map some ∧
      frames (findVideoStream stalledEnv.streamTypes 0) 0 [picturePacket, picturePacket] =
        [0, 1] ∧
      stalledEnv.rgbData0 = true ∧
      (∀ k, stalledEnv.shouldClose k = false) ∧
      (∀ k, stalledEnv.uploadGlErr k = GL_NO_ERROR) ∧
      (∀ k, stalledEnv.drawGlErr k = GL_NO_ERROR) ∧
      frameDelay stalledEnv.rateNum stalledEnv.rateDen = .posInf ∧
      (mainLoop stalledEnv).2 = .waitForever ∧
      (mainLoop stalledEnv).1 =
        [.avReadFrame (some 0), .sendPacket 0, .receiveFrame 0, .swsScale 0, .packetUnref,
          .texSubImage2D 642 480 0, .drawElements, .swapBuffers, .pace .posInf] ∧
      uploads (mainLoop stalledEnv).1 = [0] ∧
      packetsRead (mainLoop stalledEnv).1 = [0] ∧
      Event.stdout .endOfVideo ∉ (main stalledEnv).trace ∧
      (main stalledEnv).exit = none :=
  ⟨rfl, by decide, rfl, fun _ => rfl, fun _ => rfl, fun _ => rfl, by decide, by decide,
    by decide, by decide, by decide, by decide, by decide⟩

theorem skipEvents_projections : ∀ n idx,
    sends (skipEvents idx n) = [] ∧ uploads (skipEvents idx n) = [] ∧
      packetsRead (skipEvents idx n) = List.range' idx n ∧
      Event.drawElements ∉ skipEvents idx n := by
  intro n
  induction n with
  | zero => intro idx; simp [skipEvents, sends, uploads, packetsRead]
  | succ n ih =>
    intro idx
    obtain ⟨h1, h2, h3, h4⟩ := ih (idx + 1)
    simp [skipEvents, sends, uploads, packetsRead, h1, h2, h3, h4, List.range'_succ]

/-- C6: when the read results are the packets of the container, none of them of the
selected stream (the empty container included), and the window is not asked to close
before the first iteration, that iteration reads and drops every packet, fails to read
twice more (the end of the inner loop and the end-of-stream test) and stops the loop with
end-of-stream: no packet is submitted to the decoder, no texture is updated and nothing is
drawn. -/
theorem foreign_packets_end_of_stream (env : Env) (pkts : List Packet)
    (hreads : env.reads = pkts.map some)
    (hforeign : ∀ p ∈ pkts, p.streamIndex ≠ findVideoStream env.streamTypes 0)
    (hopen : env.shouldClose 0 = false) :
    mainLoop env =
        (skipEvents 0 pkts.length ++
          [.avReadFrame none, .avReadFrame none, .stdout .endOfVideo], .endOfStream) ∧
      packetsRead (mainLoop env).1 = List.range pkts.length ∧
      sends (mainLoop env).1 = [] ∧
      uploads (mainLoop env).1 = [] ∧
      Event.drawElements ∉ (mainLoop env).1 := by
  have hmain : mainLoop env =
      (skipEvents 0 pkts.length ++
        [.avReadFrame none, .avReadFrame none, .stdout .endOfVideo], .endOfStream) := by
    unfold mainLoop
    rw [hreads, List.length_map, playLoop_succ, hopen,
      decodeLoop_foreign _ _ pkts hforeign 0]
    simp [endTest]
  obtain ⟨h1, h2, h3, h4⟩ := skipEvents_projections pkts.length 0
  refine ⟨hmain, ?_, ?_, ?_, ?_⟩ <;> rw [hmain]
  · simp [packetsRead_append, h3, packetsRead, List.range_eq_range']
  · simp [sends_append, h1, sends]
  · simp [uploads_append, h2, uploads]
  · simp [h4]

/-- Witness of `foreign_packets_end_of_stream`: a container holding two packets of
another stream. -/
theorem foreign_packets_end_of_stream_witness :
    mainLoop (sampleEnv [some soundPacket, some soundPacket]) =
      ([.avReadFrame (some 0), .packetUnref, .avReadFrame (some 1), .packetUnref,
        .avReadFrame none, .avReadFrame none, .stdout .endOfVideo], .endOfStream) :=
  (foreign_packets_end_of_stream (sampleEnv [some soundPacket, some soundPacket])
    [soundPacket, soundPacket] rfl (by decide) rfl).1

theorem decodeLoop_no_frame (vs : Int) (reads : List (Option Packet)) :
    ∀ idx, (decodeLoop vs false idx reads).newFrame = none := by
  induction reads with
  | nil => intro idx; rfl
  | cons r rest ih =>
    intro idx
    cases r with
    | none => rfl
    | some p =>
      rw [decodeLoop_cons_some]
      simp only [Bool.false_eq_true, if_false]
      split_ifs <;> first | rfl | simp [ih]

theorem uploads_decodeLoop (vs : Int) (rgb : Bool) (idx : Nat) (reads : List (Option Packet)) :
    uploads (decodeLoop vs rgb idx reads).events = [] := by
  rw [← uploads_filter_isPresent,
    filter_isPresent_of_decode _ (decodeLoop_isDecode vs rgb reads idx)]
  rfl

theorem uploads_endTest (d : Decoded) : uploads (endTest d).events = [] := by
  unfold endTest
  split <;> rfl

/-- Without a usable RGB buffer the loop uploads nothing. -/
theorem playLoop_uploads_of_no_buffer (env : Env) (vs w h : Int) (delay : CDouble)
    (hrgb : env.rgbData0 = false) :
    ∀ fuel k idx reads, uploads (playLoop env vs w h delay fuel k idx reads).1 = [] := by
  intro fuel
  induction fuel with
  | zero => intro k idx reads; rfl
  | succ fuel ih =>
    intro k idx reads
    rw [playLoop_succ, hrgb]
    split_ifs <;>
      simp [uploads_append, uploads_decodeLoop, uploads_endTest, decodeLoop_no_frame, upload,
        uploads, ih]

/-- Whatever stops the loop, on a sequence of successful reads it uploads pictures of
displayable packets only. -/
theorem playLoop_uploads_subset (env : Env) (vs w h : Int) (delay : CDouble)
    (hrgb : env.rgbData0 = true) :
    ∀ fuel (pkts : List Packet) k idx,
      ∀ i ∈ uploads (playLoop env vs w h delay fuel k idx (pkts.map some)).1,
        i ∈ frames vs idx pkts := by
  intro fuel
  induction fuel with
  | zero => intro pkts k idx i hi; simp [playLoop, uploads] at hi
  | succ fuel ih =>
    intro pkts k idx i hi
    rw [playLoop_succ, hrgb] at hi
    rcases decodeLoop_spec vs pkts idx with ⟨a1, a2, _, _⟩ | ⟨n, post, b1, b2, b3, _, b5, _⟩
    · have he : endTest (decodeLoop vs true idx (pkts.map some)) =
          ⟨[.avReadFrame none], true, (decodeLoop vs true idx (pkts.map some)).next, []⟩ := by
        unfold endTest
        rw [a1, a2]
      rw [he] at hi
      by_cases hc : env.shouldClose k = true
      · simp [hc, uploads] at hi
      · simp [hc, uploads_append, uploads_decodeLoop, uploads] at hi
    · have he : endTest (decodeLoop vs true idx (pkts.map some)) =
          ⟨[], false, idx + n + 1, post.map some⟩ := by
        unfold endTest
        rw [b1, b2, b3]
      have hrec := ih post (k + 1) (idx + n + 1) i
      rw [he, b1] at hi
      rw [b5]
      simp only [Bool.false_eq_true, if_false, Option.isSome_some, true_and] at hi
      split_ifs at hi <;>
        simp only [uploads_append, uploads_decodeLoop, uploads, upload, List.nil_append,
          List.append_nil, List.cons_append, List.mem_cons, List.not_mem_nil, or_false,
          List.mem_append] at hi <;>
        first
          | (rcases hi with hi | hi
             · exact List.mem_cons.2 (Or.inl hi)
             · exact List.mem_cons.2 (Or.inr (hrec hi)))
          | exact List.mem_cons.2 (Or.inl hi)

/-- C10 fails on the code: when a read fails and the next one succeeds, the packet of the
successful read is taken by the end-of-stream test of line 407; it is read, never
submitted to the decoder and its picture is never uploaded, while the loop goes on. -/
theorem end_test_read_drops_packet :
    packetsRead (mainLoop (sampleEnv [none, some picturePacket])).1 = [1] ∧
      sends (mainLoop (sampleEnv [none, some picturePacket])).1 = [] ∧
      uploads (mainLoop (sampleEnv [none, some picturePacket])).1 = [] ∧
      Event.avReadFrame (some 1) ∈ (mainLoop (sampleEnv [none, some picturePacket])).1 ∧
      Event.sendPacket 1 ∉ (mainLoop (sampleEnv [none, some picturePacket])).1 ∧
      (mainLoop (sampleEnv [none, some picturePacket])).2 = .endOfStream := by
  decide

/-! ## Start-up and exit paths -/

theorem CreateTexture_cases (env : Env) (w h : Int) :
    ((CreateTexture env w h).2 = 0 ∧ resourceTrace (CreateTexture env w h).1 = []) ∨
    ((CreateTexture env w h).2 = 0 ∧ resourceTrace (CreateTexture env w h).1 =
      [.acquire .texture, .release .texture]) ∨
    ((CreateTexture env w h).2 ≠ 0 ∧ resourceTrace (CreateTexture env w h).1 =
      [.acquire .texture]) := by
  unfold CreateTexture
  split_ifs with c1 c2
  · left; simp [resourceTrace, Event.isResource]
  · right; left; simp [resourceTrace, Event.isResource]
  · right; right; exact ⟨c1, by simp [resourceTrace, Event.isResource]⟩

theorem CreateSimpleShader_cases (env : Env) :
    ((CreateSimpleShader env).2 = false ∧ resourceTrace (CreateSimpleShader env).1 =
      [.acquire .vertexShader, .release .vertexShader]) ∨
    ((CreateSimpleShader env).2 = false ∧ resourceTrace (CreateSimpleShader env).1 =
      [.acquire .vertexShader, .acquire .fragmentShader, .release .fragmentShader,
        .release .vertexShader]) ∨
    ((CreateSimpleShader env).2 = false ∧ resourceTrace (CreateSimpleShader env).1 =
      [.acquire .vertexShader, .acquire .fragmentShader, .acquire .shaderProgram,
        .release .vertexShader, .release .fragmentShader, .release .shaderProgram]) ∨
    ((CreateSimpleShader env).2 = true ∧ resourceTrace (CreateSimpleShader env).1 =
      [.acquire .vertexShader, .acquire .fragmentShader, .acquire .shaderProgram,
        .release .vertexShader, .release .fragmentShader]) := by
  unfold CreateSimpleShader compile
  cases env.vsCompiled <;> cases env.fsCompiled <;> cases env.linked <;>
    simp [resourceTrace, Event.isResource]

/-- As far as acquisitions, releases and the returned value go, the start-up of every run
is the start-up of one of the runs of `pathEnvs`. -/
theorem setup_paths (env : Env) : (setup env).outcome ∈ setupOutcomes := by
  unfold setup
  split_ifs
  iterate 8
    simp only [Setup.outcome, Setup.trace, Setup.code]
    simp only [resourceTrace, List.filter, Event.isResource]
    decide
  unfold setupFrames
  split_ifs
  iterate 6
    simp only [Setup.outcome, Setup.trace, Setup.code]
    simp only [resourceTrace, List.filter, Event.isResource, List.cons_append,
      List.nil_append]
    decide
  unfold setupWindow
  split_ifs
  iterate 3
    simp only [Setup.outcome, Setup.trace, Setup.code]
    simp only [resourceTrace, List.filter, Event.isResource, List.cons_append,
      List.nil_append]
    decide
  unfold setupGpu
  simp only []
  rcases CreateTexture_cases env (evenDim env.srcW) (evenDim env.srcH) with
    ⟨ht2, ht1⟩ | ⟨ht2, ht1⟩ | ⟨ht2, ht1⟩
  · rw [if_pos ht2]
    simp only [Setup.outcome, Setup.trace, Setup.code, resourceTrace_append, ht1]
    simp only [resourceTrace, List.filter, Event.isResource, List.cons_append,
      List.nil_append, List.append_nil]
    decide
  · rw [if_pos ht2]
    simp only [Setup.outcome, Setup.trace, Setup.code, resourceTrace_append, ht1]
    simp only [resourceTrace, List.filter, Event.isResource, List.cons_append,
      List.nil_append, List.append_nil]
    decide
  rw [if_neg ht2]
  rcases CreateSimpleShader_cases env with
    ⟨hs2, hs1⟩ | ⟨hs2, hs1⟩ | ⟨hs2, hs1⟩ | ⟨hs2, hs1⟩
  iterate 3
    rw [if_pos hs2]
    simp only [Setup.outcome, Setup.trace, Setup.code, resourceTrace_append, ht1, hs1]
    simp only [resourceTrace, List.filter, Event.isResource, List.cons_append,
      List.nil_append, List.append_nil]
    decide
  rw [if_neg (by rw [hs2]; decide)]
  split_ifs
  iterate 3
    simp only [Setup.outcome, Setup.trace, Setup.code, resourceTrace_append, ht1, hs1]
    simp only [resourceTrace, List.filter, Event.isResource, List.cons_append,
      List.nil_append, List.append_nil]
    decide

theorem exit_none_iff (env : Env) :
    (main env).exit = none ↔ (main env).stop = some .waitForever := by
  unfold main
  cases hs : setup env with
  | returned t c => simp
  | ready t =>
    by_cases hw : (mainLoop env).2 = .waitForever <;> simp [hw]

theorem outcome_eq_finish (env : Env) (hexit : (main env).exit ≠ none) :
    outcome env = finish (setup env).outcome := by
  unfold outcome
  unfold main at hexit ⊢
  cases hs : setup env with
  | returned t c => simp [Setup.outcome, Setup.trace, Setup.code, finish]
  | ready t =>
    rw [hs] at hexit
    by_cases hw : (mainLoop env).2 = .waitForever
    · simp [hw] at hexit
    · have hr : resourceTrace (mainLoop env).1 = [] := playLoop_resourceTrace _ _ _ _ _ _ _ _ _
      simp [hw, Setup.outcome, Setup.trace, Setup.code, finish, resourceTrace_append, hr]

/-- Every run in which `main` returns has the acquisitions, the releases, the returned
value and the loop entry of one of the runs of `pathEnvs`. -/
theorem main_paths (env : Env) (hexit : (main env).exit ≠ none) :
    ∃ e ∈ pathEnvs, outcome env = outcome e := by
  have h := setup_paths env
  unfold setupOutcomes at h
  rw [List.mem_map] at h
  obtain ⟨e, he, heq⟩ := h
  have hall : ∀ e ∈ pathEnvs, outcome e = finish (setup e).outcome := by decide
  exact ⟨e, he, by rw [outcome_eq_finish env hexit, hall e he, heq]⟩

theorem acquired_resourceTrace (t : List Event) : acquired (resourceTrace t) = acquired t := by
  unfold resourceTrace
  induction t with
  | nil => rfl
  | cons e t ih => cases e <;> simp [List.filter, Event.isResource, acquired, ih]

theorem released_resourceTrace (t : List Event) : released (resourceTrace t) = released t := by
  unfold resourceTrace
  induction t with
  | nil => rfl
  | cons e t ih => cases e <;> simp [List.filter, Event.isResource, released, ih]

theorem holdings_resourceTrace (t : List Event) :
    ∀ held, holdings held (resourceTrace t) = holdings held t := by
  unfold resourceTrace
  induction t with
  | nil => intro held; rfl
  | cons e t ih => intro held; cases e <;> simp [List.filter, Event.isResource, holdings, ih]

/-! ## Claims about the exit paths -/

/-- The value returned by `main` is -1 when the start-up fails and 0 whenever the loop was
entered and left, whatever stopped the loop; `main` does not return when the loop stays
in its pacing wait. -/
theorem main_exit (env : Env) :
    (main env).exit =
      match (main env).stop with
      | none => some (-1)
      | some .waitForever => none
      | some _ => some 0 := by
  by_cases hexit : (main env).exit = none
  · rw [hexit, (exit_none_iff env).1 hexit]
  · obtain ⟨e, he, heq⟩ := main_paths env hexit
    have hall : ∀ e ∈ pathEnvs,
        (outcome e).2.1 = if (outcome e).2.2 then some 0 else some (-1) := by
      decide
    have h1 := hall e he
    rw [← heq] at h1
    have h2 : (main env).stop ≠ some .waitForever := fun h => hexit ((exit_none_iff env).2 h)
    simp only [outcome] at h1
    rw [h1]
    have key : ∀ st : Option Stop, st ≠ some .waitForever →
        (if st.isSome = true then some (0 : Int) else some (-1)) =
          match st with
          | none => some (-1)
          | some .waitForever => none
          | some _ => some 0 := by
      intro st hst
      cases st with
      | none => rfl
      | some x => cases x <;> simp_all
    exact key _ h2

/-- C1 fails on the code: every run whose playback loop is stopped by a GPU fault, that
is by an error that `glGetError` reports after the texture update or after the draw call,
ends with `main` returning 0. -/
theorem gpu_fault_in_loop_returns_zero (env : Env)
    (h : (main env).stop = some .gpuFault) : (main env).exit = some 0 := by
  rw [main_exit, h]

/-- Witness of `gpu_fault_in_loop_returns_zero`: a run where `glGetError` reports an
error after the first texture update, and a run where it reports one after the first draw
call; both write the diagnostic of the fault and return 0. -/
theorem gpu_fault_in_loop_returns_zero_witness :
    (main gpuFaultEnv).stop = some .gpuFault ∧
      Event.stderr (.glUpdateTexture 1280) ∈ (main gpuFaultEnv).trace ∧
      (main gpuFaultEnv).exit = some 0 ∧
      (main drawFaultEnv).stop = some .gpuFault ∧
      Event.stderr (.glRender 1282) ∈ (main drawFaultEnv).trace ∧
      (main drawFaultEnv).exit = some 0 :=
  ⟨by decide, by decide, gpu_fault_in_loop_returns_zero gpuFaultEnv (by decide),
    by decide, by decide, gpu_fault_in_loop_returns_zero drawFaultEnv (by decide)⟩

/-- C7, as stated, fails: in the run that reaches the loop, and in the run where the
buffer size cannot be computed, the listed resources are not released in the reverse of
the order in which they were acquired. -/
theorem release_order_not_reverse :
    listedReleased (main (sampleEnv [])).trace ≠
        (listedAcquired (main (sampleEnv [])).trace).reverse ∧
      listedReleased (main { sampleEnv [] with numBytes := -22 }).trace ≠
        (listedAcquired (main { sampleEnv [] with numBytes := -22 }).trace).reverse := by
  decide

/-- C7 (amended): on every exit path of `main`, that is whenever `main` returns, the
listed resources are released in the reverse of the order in which they were acquired, except that the raw frame is released
before the RGB frame and that the cleanup after the loop releases the scale context before
the two frames; where no RGB frame was acquired the order is exactly the reverse. -/
theorem release_order_on_every_path (env : Env) (hexit : (main env).exit ≠ none) :
    listedReleased (main env).trace =
        releaseOrder (main env).stop.isSome (listedAcquired (main env).trace).reverse ∧
      (Resource.rgbFrame ∉ listedAcquired (main env).trace →
        listedReleased (main env).trace = (listedAcquired (main env).trace).reverse) := by
  obtain ⟨e, he, heq⟩ := main_paths env hexit
  have hall : ∀ e ∈ pathEnvs,
      (released (outcome e).1).filter Resource.listed =
          releaseOrder (outcome e).2.2
            ((acquired (outcome e).1).filter Resource.listed).reverse ∧
        (Resource.rgbFrame ∉ (acquired (outcome e).1).filter Resource.listed →
          (released (outcome e).1).filter Resource.listed =
            ((acquired (outcome e).1).filter Resource.listed).reverse) := by
    decide
  have := hall e he
  rw [← heq] at this
  simpa [outcome, listedReleased, listedAcquired, acquired_resourceTrace,
    released_resourceTrace] using this

/-- Witness of `release_order_on_every_path`: the run where the RGB frame cannot be
allocated releases raw frame, scale context, codec context and container, the exact
reverse of the acquisition order. -/
theorem release_order_on_every_path_witness :
    listedReleased (main { sampleEnv [] with rgbFrameAlloc := false }).trace =
      [.rawFrame, .swsCtx, .codecCtx, .container] ∧
    listedAcquired (main { sampleEnv [] with rgbFrameAlloc := false }).trace =
      [.container, .codecCtx, .swsCtx, .rawFrame] :=
  ⟨((release_order_on_every_path { sampleEnv [] with rgbFrameAlloc := false }
    (by decide)).2 (by decide)).trans (by decide), by decide⟩

/-- C8: on every exit path of `main`, that is whenever `main` returns, every release is of
a resource that is held at that point, no resource is acquired while held, nothing is held when `main` returns, no
resource is acquired twice, and the resources released are exactly the resources
acquired. -/
theorem every_exit_path_balanced (env : Env) (hexit : (main env).exit ≠ none) :
    holdings [] (main env).trace = some [] ∧
      (acquired (main env).trace).Nodup ∧
      (released (main env).trace).Nodup ∧
      (released (main env).trace).Perm (acquired (main env).trace) := by
  obtain ⟨e, he, heq⟩ := main_paths env hexit
  have hall : ∀ e ∈ pathEnvs,
      holdings [] (outcome e).1 = some [] ∧ (acquired (outcome e).1).Nodup ∧
        (released (outcome e).1).Nodup ∧
        (released (outcome e).1).Perm (acquired (outcome e).1) := by
    decide
  have := hall e he
  rw [← heq] at this
  simpa [outcome, holdings_resourceTrace, acquired_resourceTrace,
    released_resourceTrace] using this

/-- Witness of `every_exit_path_balanced`: the run that shows one picture and leaves the
loop on end-of-stream holds nothing when `main` returns. -/
theorem every_exit_path_balanced_witness :
    (main (sampleEnv [some picturePacket])).exit = some 0 ∧
      holdings [] (main (sampleEnv [some picturePacket])).trace = some [] :=
  ⟨by decide, (every_exit_path_balanced (sampleEnv [some picturePacket]) (by decide)).1⟩

/-! ## Output size and frame delay along a run -/

theorem CreateTexture_agrees (env : Env) (w h : Int) (d : CDouble) :
    ∀ e ∈ (CreateTexture env w h).1, e.agrees w h d := by
  unfold CreateTexture
  split_ifs <;>
    simp only [List.forall_mem_cons, List.not_mem_nil, false_implies, implies_true,
      and_true] <;>
    simp [Event.agrees, Event.outputSize, Event.delay]

theorem CreateSimpleShader_agrees (env : Env) (w h : Int) (d : CDouble) :
    ∀ e ∈ (CreateSimpleShader env).1, e.agrees w h d := by
  unfold CreateSimpleShader compile
  cases env.vsCompiled <;> cases env.fsCompiled <;> cases env.linked <;>
    simp [Event.agrees, Event.outputSize, Event.delay]

theorem setupGpu_agrees (env : Env) (w h : Int) (d : CDouble) (t : List Event)
    (ht : ∀ e ∈ t, e.agrees w h d) : ∀ e ∈ (setupGpu env w h t).trace, e.agrees w h d := by
  have htex := CreateTexture_agrees env w h d
  have hsh := CreateSimpleShader_agrees env w h d
  unfold setupGpu
  simp only []
  split_ifs <;>
    simp only [Setup.trace, List.forall_mem_append, List.forall_mem_cons, List.not_mem_nil,
      false_implies, implies_true, and_true] <;>
    repeat' constructor
  all_goals first
    | exact ht
    | exact htex
    | exact hsh
    | simp [Event.agrees, Event.outputSize, Event.delay]

theorem setupWindow_agrees (env : Env) (w h : Int) (d : CDouble) (t : List Event)
    (ht : ∀ e ∈ t, e.agrees w h d) :
    ∀ e ∈ (setupWindow env w h t).trace, e.agrees w h d := by
  unfold setupWindow
  split_ifs
  iterate 3
    simp only [Setup.trace, List.forall_mem_append, List.forall_mem_cons, List.not_mem_nil,
      false_implies, implies_true, and_true]
    refine ⟨ht, ?_⟩
    simp [Event.agrees, Event.outputSize, Event.delay]
  apply setupGpu_agrees
  simp only [List.forall_mem_append, List.forall_mem_cons, List.not_mem_nil,
    false_implies, implies_true, and_true]
  refine ⟨ht, ?_⟩
  simp [Event.agrees, Event.outputSize, Event.delay]

theorem setupFrames_agrees (env : Env) (w h : Int) (d : CDouble) (t : List Event)
    (ht : ∀ e ∈ t, e.agrees w h d) :
    ∀ e ∈ (setupFrames env w h t).trace, e.agrees w h d := by
  unfold setupFrames
  split_ifs
  iterate 6
    simp only [Setup.trace, List.forall_mem_append, List.forall_mem_cons, List.not_mem_nil,
      false_implies, implies_true, and_true]
    refine ⟨ht, ?_⟩
    simp [Event.agrees, Event.outputSize, Event.delay]
  apply setupWindow_agrees
  simp only [List.forall_mem_append, List.forall_mem_cons, List.not_mem_nil,
    false_implies, implies_true, and_true]
  refine ⟨ht, ?_⟩
  simp [Event.agrees, Event.outputSize, Event.delay]

theorem setup_agrees (env : Env) :
    ∀ e ∈ (setup env).trace,
      e.agrees (evenDim env.srcW) (evenDim env.srcH) (frameDelay env.rateNum env.rateDen) := by
  unfold setup
  split_ifs
  iterate 8
    simp only [Setup.trace, List.forall_mem_cons, List.not_mem_nil, false_implies,
      implies_true, and_true]
    simp [Event.agrees, Event.outputSize, Event.delay]
  apply setupFrames_agrees
  simp only [List.forall_mem_cons, List.not_mem_nil, false_implies, implies_true, and_true]
  simp [Event.agrees, Event.outputSize, Event.delay]

/-- Every event of a run uses the output size and the frame delay computed at start-up. -/
theorem main_agrees (env : Env) :
    ∀ e ∈ (main env).trace,
      e.agrees (evenDim env.srcW) (evenDim env.srcH) (frameDelay env.rateNum env.rateDen) := by
  have hs := setup_agrees env
  unfold main
  cases hsetup : setup env with
  | returned t c =>
    rw [hsetup] at hs
    exact hs
  | ready t =>
    rw [hsetup] at hs
    have hl := playLoop_agrees env (findVideoStream env.streamTypes 0) (evenDim env.srcW)
      (evenDim env.srcH) (frameDelay env.rateNum env.rateDen) (env.reads.length + 1) 0 0
      env.reads
    by_cases hw : (mainLoop env).2 = .waitForever
    · simp only [hw, if_true, List.forall_mem_append]
      exact ⟨hs, hl⟩
    · simp only [hw, if_false, List.forall_mem_append]
      refine ⟨⟨hs, hl⟩, ?_⟩
      unfold cleanup
      simp [Event.agrees, Event.outputSize, Event.delay]

/-! ## Claims about the frame delay and the output size -/

/-- C3: the frame delay computed at start-up is 1.0 when the denominator of the average
frame rate is zero and the C quotient `(double)den / num` otherwise, which is the rational
den/num when the numerator is not zero (1001/30000 for a 30000/1001 stream) and an infinity
when it is; and every pacing wait of the loop, like the start-up report, uses that
start-up value. -/
theorem frame_delay_fixed_at_startup (env : Env) :
    (env.rateDen = 0 → frameDelay env.rateNum env.rateDen = .finite 1) ∧
      (env.rateDen ≠ 0 →
        frameDelay env.rateNum env.rateDen = CDouble.divInts env.rateDen env.rateNum) ∧
      (env.rateDen ≠ 0 → env.rateNum ≠ 0 →
        frameDelay env.rateNum env.rateDen =
          .finite ((env.rateDen : ℚ) / (env.rateNum : ℚ))) ∧
      (env.rateDen ≠ 0 → env.rateNum = 0 →
        frameDelay env.rateNum env.rateDen = .posInf ∨
          frameDelay env.rateNum env.rateDen = .negInf) ∧
      frameDelay 30000 1001 = .finite (1001 / 30000) ∧
      (∀ d, Event.pace d ∈ (main env).trace → d = frameDelay env.rateNum env.rateDen) ∧
      (∀ d, Event.stdout (.frameDelay d) ∈ (main env).trace →
        d = frameDelay env.rateNum env.rateDen) := by
  refine ⟨?_, ?_, ?_, ?_, ?_, ?_, ?_⟩
  · intro h
    simp [frameDelay, h]
  · intro h
    simp [frameDelay, h]
  · intro hd hn
    simp [frameDelay, hd, divInts_of_ne_zero _ _ hn]
  · intro hd hn
    simp only [frameDelay, CDouble.divInts, hd, hn, ne_eq, not_false_eq_true, if_true,
      if_false]
    by_cases hpos : 0 < env.rateDen <;> simp [hpos]
  · simp [frameDelay, CDouble.divInts, Rat.divInt_eq_div]
  · intro d hd
    exact (main_agrees env _ hd).2 d rfl
  · intro d hd
    exact (main_agrees env _ hd).2 d rfl

/-- Witness of `frame_delay_fixed_at_startup`: the 30000/1001 stream of `sampleEnv` with
one displayable packet waits once, for 1001/30000 seconds. -/
theorem frame_delay_fixed_at_startup_witness :
    Event.pace (.finite (Rat.divInt 1001 30000)) ∈ (main (sampleEnv [some picturePacket])).trace ∧
      CDouble.finite (Rat.divInt 1001 30000) = frameDelay 30000 1001 ∧
      frameDelay 30000 1001 = .finite (((1001 : Int) : ℚ) / ((30000 : Int) : ℚ)) :=
  ⟨by decide,
    (frame_delay_fixed_at_startup (sampleEnv [some picturePacket])).2.2.2.2.2.1 _ (by decide),
    (frame_delay_fixed_at_startup (sampleEnv [some picturePacket])).2.2.1 (by decide)
      (by decide)⟩

/-- C4, as stated, fails: for the odd negative width -3 the code yields -2, while
srcW + (srcW % 2) with the C remainder is -4. -/
theorem evenDim_negative_odd :
    Int.tmod (-3) 2 = -1 ∧ evenDim (-3) = -2 ∧ evenDim (-3) ≠ -3 + Int.tmod (-3) 2 := by
  decide

theorem evenDim_abs (src : Int) (h0 : -(2 ^ 31) ≤ src) (h1 : src < 2 ^ 31 - 1) :
    evenDim src = src + |Int.tmod src 2| := by
  unfold evenDim
  by_cases hs : 0 ≤ src
  · rw [Int.tmod_eq_emod hs (by decide)]
    have : |src % 2| = src % 2 := abs_of_nonneg (by omega)
    rw [this]
    split
    · unfold wrapInt32; omega
    · omega
  · have hneg : Int.tmod src 2 = -((-src) % 2) := by
      have h := Int.tmod_eq_emod (a := -src) (b := 2) (by omega) (by decide)
      rw [← h, Int.tmod_def, Int.tmod_def, Int.neg_tdiv]
      omega
    rw [hneg, abs_neg, abs_of_nonneg (by omega)]
    split
    · unfold wrapInt32; omega
    · omega

/-- C4 (amended): the output dimensions computed at start-up are even; for every source
dimension in the `int` range below `INT_MAX` they are outW = srcW + |srcW % 2| and
outH = srcH + |srcH % 2| with the C remainder, which is srcW + (srcW % 2) and
srcH + (srcH % 2) when the source dimension is not negative; and these same (outW, outH)
are the size given to the buffer sizing and filling, to the texture creation and to every
texture update. -/
theorem output_size_even_and_shared (env : Env) :
    Int.tmod (evenDim env.srcW) 2 = 0 ∧ Int.tmod (evenDim env.srcH) 2 = 0 ∧
      (-(2 ^ 31) ≤ env.srcW → env.srcW < 2 ^ 31 - 1 →
        evenDim env.srcW = env.srcW + |Int.tmod env.srcW 2|) ∧
      (-(2 ^ 31) ≤ env.srcH → env.srcH < 2 ^ 31 - 1 →
        evenDim env.srcH = env.srcH + |Int.tmod env.srcH 2|) ∧
      (0 ≤ env.srcW → env.srcW < 2 ^ 31 - 1 →
        evenDim env.srcW = env.srcW + Int.tmod env.srcW 2) ∧
      (0 ≤ env.srcH → env.srcH < 2 ^ 31 - 1 →
        evenDim env.srcH = env.srcH + Int.tmod env.srcH 2) ∧
      ∀ e ∈ (main env).trace, ∀ s, e.outputSize = some s →
        s = (evenDim env.srcW, evenDim env.srcH) :=
  ⟨evenDim_even _, evenDim_even _, evenDim_abs _, evenDim_abs _, evenDim_of_nonneg _,
    evenDim_of_nonneg _, fun e he => (main_agrees env e he).1⟩

/-- Witness of `output_size_even_and_shared`: the 641x480 stream of `sampleEnv` is shown
at 642x480, the size of its texture update. -/
theorem output_size_even_and_shared_witness :
    evenDim 641 = 641 + Int.tmod 641 2 ∧ evenDim 641 = 641 + |Int.tmod 641 2| ∧
      Event.texSubImage2D 642 480 0 ∈ (main (sampleEnv [some picturePacket])).trace ∧
      ((642 : Int), (480 : Int)) = (evenDim 641, evenDim 480) :=
  ⟨(output_size_even_and_shared (sampleEnv [some picturePacket])).2.2.2.2.1 (by decide)
      (by decide),
    (output_size_even_and_shared (sampleEnv [some picturePacket])).2.2.1 (by decide)
      (by decide),
    by decide,
    (output_size_even_and_shared (sampleEnv [some picturePacket])).2.2.2.2.2.2
      (Event.texSubImage2D 642 480 0) (by decide) (642, 480) rfl⟩

end VideoPlayer
